import Mathlib

/-!
Verification development for the landscaper estimator core:
`landscaping_materials.py` (wall materials calculator over a material
catalog) and `job_calculator.py` (generic job calculator and unit
conversion helpers).  Numbers are embedded as rationals; Python `round`
(round half to even, to a given number of decimal digits) is modelled by
`rhe`/`roundTo`; Python dictionaries are modelled as insertion-ordered
association lists; functions that can raise return `Except`/`Option`.
String formatting inside informational note strings is abstracted by
`toString` of the rounded rational.
-/

namespace Landscaper

set_option maxRecDepth 100000

/-- Python `round` to an integer: round half to even (banker rounding). -/
def rhe (q : ℚ) : ℤ :=
  let f := ⌊q⌋
  let r := q - (f : ℚ)
  if r < 1/2 then f
  else if 1/2 < r then f + 1
  else if f % 2 = 0 then f else f + 1

/-- Python `round(x, n)` for `n` decimal digits. -/
def roundTo (n : ℕ) (q : ℚ) : ℚ := (rhe (q * (10 : ℚ) ^ n) : ℚ) / (10 : ℚ) ^ n

/-- `round(x, 2)`: round to cents. -/
def round2 (q : ℚ) : ℚ := roundTo 2 q

/-- `round(x, 1)`. -/
def round1 (q : ℚ) : ℚ := roundTo 1 q

/-- `round(x, 0)` (the result stays a number, not an integer type). -/
def round0 (q : ℚ) : ℚ := roundTo 0 q

/-- Insertion-ordered string-to-rational map, the model of the Python
dictionaries `calculations`, `materials_needed` and `cost_breakdown`. -/
abbrev Entries := List (String × ℚ)

/-- Dictionary lookup, `d.get(k)`. -/
def getE : Entries → String → Option ℚ
  | [], _ => none
  | (k, v) :: rest, key => if k = key then some v else getE rest key

/-- Dictionary lookup with default, `d.get(k, dflt)`. -/
def getD (xs : Entries) (key : String) (dflt : ℚ) : ℚ :=
  match getE xs key with
  | some v => v
  | none => dflt

/-- Dictionary assignment `d[k] = v`: replace in place if the key exists,
append otherwise (Python dictionaries keep insertion order). -/
def setE : Entries → String → ℚ → Entries
  | [], key, v => [(key, v)]
  | (k, w) :: rest, key, v =>
    if k = key then (k, v) :: rest else (k, w) :: setE rest key v

/-- Whether the first character list is a prefix of the second. -/
def prefixChars : List Char → List Char → Bool
  | [], _ => true
  | _ :: _, [] => false
  | a :: as, b :: bs => a == b && prefixChars as bs

/-- Whether the first character list occurs inside the second. -/
def subChars (needle : List Char) : List Char → Bool
  | [] => needle.isEmpty
  | c :: cs => prefixChars needle (c :: cs) || subChars needle cs

/-- Python `"cap" in name.lower()`: the cap-name test of
`_add_cap_materials`. -/
def nameHasCap (name : String) : Bool :=
  subChars "cap".data (name.data.map Char.toLower)

/-- `MaterialType` enumeration of `landscaping_materials.py`. -/
inductive MaterialType where
  | RETAINING_WALL_BLOCKS
  | PAVERS
  | STONE
  | CONCRETE
  | BRICK
  | TIMBER
  | GABION
  | BLOCK
  | WOOD
  | METAL
  | OTHER
  deriving DecidableEq, Repr

/-- The `.value` string of each enumeration member. -/
def MaterialType.value : MaterialType → String
  | .RETAINING_WALL_BLOCKS => "retaining_wall_blocks"
  | .PAVERS => "pavers"
  | .STONE => "stone"
  | .CONCRETE => "concrete"
  | .BRICK => "brick"
  | .TIMBER => "timber"
  | .GABION => "gabion"
  | .BLOCK => "block"
  | .WOOD => "wood"
  | .METAL => "metal"
  | .OTHER => "other"

/-- `MaterialSpec` dataclass: specifications for a landscaping material. -/
structure MaterialSpec where
  id : String
  name : String
  material_type : MaterialType
  length : ℚ
  width : ℚ
  height : ℚ
  weight : ℚ
  coverage_per_unit : ℚ
  price_per_unit : ℚ
  description : String
  use_case : String
  installation_notes : String
  deriving DecidableEq, Repr

/-- The loaded `self.materials` dictionary: material id to spec,
insertion ordered. -/
abbrev Catalog := List (String × MaterialSpec)

/-- `get_material`: dictionary `.get` on the loaded materials. -/
def get_material : Catalog → String → Option MaterialSpec
  | [], _ => none
  | (k, m) :: rest, mid => if k = mid then some m else get_material rest mid

/-- First material of the catalog whose `name` equals the given string
(the primary-material search of `_calculate_total_costs`). -/
def findByName : Catalog → String → Option MaterialSpec
  | [], _ => none
  | (_, m) :: rest, n => if m.name = n then some m else findByName rest n

/-- First material of the catalog whose lowercased name contains "cap"
(the search of `_add_cap_materials`). -/
def findCap : Catalog → Option MaterialSpec
  | [] => none
  | (_, m) :: rest =>
    if nameHasCap m.name then some m else findCap rest

/-- The `wall_specifications` section of the results dictionary. -/
structure WallSpecs where
  length_feet : ℚ
  height_feet : ℚ
  length_inches : ℚ
  height_inches : ℚ
  deriving DecidableEq, Repr

/-- The `primary_material` section of the results dictionary. -/
structure PrimaryMaterial where
  name : String
  type : String
  dimensions : String
  weight_per_unit : ℚ
  price_per_unit : ℚ
  deriving DecidableEq, Repr

/-- The results dictionary built by `calculate_wall_materials`; the
`total_estimated_cost` key is absent until `_calculate_total_costs`
sets it. -/
structure WallResults where
  wall_specifications : WallSpecs
  primary_material : PrimaryMaterial
  calculations : Entries
  materials_needed : Entries
  cost_breakdown : Entries
  installation_notes : List String
  total_estimated_cost : Option ℚ
  deriving DecidableEq, Repr

/-- `_calculate_concrete_block_wall` (also the default branch for
unknown material types): falsy material dimensions are replaced by the
16 x 8 x 8 defaults before the course arithmetic. -/
def calculate_concrete_block_wall (r : WallResults) (material : MaterialSpec)
    (wall_length_inches wall_height_inches : ℚ) : WallResults :=
  let length := if material.length = 0 then 16 else material.length
  let height := if material.height = 0 then 8 else material.height
  let blocks_per_course : ℤ := ⌈wall_length_inches / length⌉
  let courses : ℤ := ⌈wall_height_inches / height⌉
  let total_blocks : ℤ := blocks_per_course * courses
  let mortar_bags : ℤ := ⌈(total_blocks : ℚ) * (3/10)⌉
  let rebar_pieces : ℤ := ⌈wall_length_inches / 48⌉
  let concrete_footings : ℚ := round2 (wall_length_inches * 12 * 8 / 46656)
  { r with
    calculations :=
      [("blocks_per_course", (blocks_per_course : ℚ)),
       ("number_of_courses", (courses : ℚ)),
       ("total_blocks", (total_blocks : ℚ))]
    materials_needed :=
      [("concrete_blocks", (total_blocks : ℚ)),
       ("mortar_bags", (mortar_bags : ℚ)),
       ("rebar_pieces", (rebar_pieces : ℚ)),
       ("concrete_footings_cubic_yards", concrete_footings)] }

/-- `_calculate_paver_wall`: the paver formula with its 3-course cap.
This helper exists in the source but is never invoked by
`calculate_wall_materials`, whose dispatch has no `PAVERS` arm. -/
def calculate_paver_wall (r : WallResults) (material : MaterialSpec)
    (wall_length_inches wall_height_inches : ℚ) : WallResults :=
  let courses : ℤ := min ⌈wall_height_inches / material.height⌉ 3
  let pavers_per_course : ℤ := ⌈wall_length_inches / material.length⌉
  let total_pavers : ℤ := pavers_per_course * courses
  { r with
    calculations :=
      [("pavers_per_course", (pavers_per_course : ℚ)),
       ("number_of_courses", (courses : ℚ)),
       ("total_pavers", (total_pavers : ℚ))]
    materials_needed :=
      [("pavers", (total_pavers : ℚ)),
       ("sand_base_cubic_yards", round2 (wall_length_inches * material.width * 4 / 46656)),
       ("paver_sand_cubic_yards", round2 (wall_length_inches * material.width * 1 / 46656))] }

/-- `_calculate_stone_wall`. -/
def calculate_stone_wall (r : WallResults) (material : MaterialSpec)
    (wall_length_inches wall_height_inches : ℚ) : WallResults :=
  let wall_area_sq_ft : ℚ := wall_length_inches * wall_height_inches / 144
  let stones_needed : ℤ := ⌈wall_area_sq_ft / material.coverage_per_unit⌉
  { r with
    calculations :=
      [("wall_area_square_feet", round2 wall_area_sq_ft),
       ("estimated_stones", (stones_needed : ℚ))]
    materials_needed :=
      [("stone_blocks", (stones_needed : ℚ)),
       ("mortar_bags", (⌈(stones_needed : ℚ) * (1/10)⌉ : ℤ)),
       ("gravel_base_cubic_yards", round2 (wall_length_inches * 12 * 6 / 46656))] }

/-- `_calculate_brick_wall`: unit sizes are inflated by the 0.375 inch
mortar joint before the course division. -/
def calculate_brick_wall (r : WallResults) (material : MaterialSpec)
    (wall_length_inches wall_height_inches : ℚ) : WallResults :=
  let bricks_per_course : ℤ := ⌈wall_length_inches / (material.length + 3/8)⌉
  let courses : ℤ := ⌈wall_height_inches / (material.height + 3/8)⌉
  let total_bricks : ℤ := bricks_per_course * courses
  { r with
    calculations :=
      [("bricks_per_course", (bricks_per_course : ℚ)),
       ("number_of_courses", (courses : ℚ)),
       ("total_bricks", (total_bricks : ℚ))]
    materials_needed :=
      [("bricks", (total_bricks : ℚ)),
       ("mortar_bags", (⌈(total_bricks : ℚ) * (5/100)⌉ : ℤ)),
       ("sand_cubic_yards", round2 ((total_bricks : ℚ) * (1/1000)))] }

/-- `_calculate_timber_wall`. -/
def calculate_timber_wall (r : WallResults) (material : MaterialSpec)
    (wall_length_inches wall_height_inches : ℚ) : WallResults :=
  let courses : ℤ := ⌈wall_height_inches / material.height⌉
  let timbers_per_course : ℤ := ⌈wall_length_inches / material.length⌉
  let timbers_needed : ℤ := timbers_per_course * courses
  { r with
    calculations :=
      [("timbers_per_course", (timbers_per_course : ℚ)),
       ("number_of_courses", (courses : ℚ)),
       ("total_timbers", (timbers_needed : ℚ))]
    materials_needed :=
      [("landscape_timbers", (timbers_needed : ℚ)),
       ("rebar_pieces", ((timbers_needed * 2 : ℤ) : ℚ)),
       ("gravel_base_cubic_yards", round2 (wall_length_inches * 6 * 4 / 46656))] }

/-- `_add_base_materials`: landscape fabric, and drainage pipe when the
wall is taller than 3 feet. -/
def add_base_materials (r : WallResults) (wall_length wall_height : ℚ) :
    WallResults :=
  let needed :=
    setE (setE r.materials_needed
        "landscape_fabric_square_feet" (round0 (wall_length * 2)))
      "drainage_pipe_feet" (if wall_height > 3 then round0 wall_length else 0)
  { r with materials_needed := needed }

/-- `_add_cap_materials`: locate a cap material by name substring; when
found with positive length, record the cap block count and write the cap
cost into `cost_breakdown` (which `_calculate_total_costs` later
rebuilds from scratch). -/
def add_cap_materials (mats : Catalog) (r : WallResults)
    (wall_length_inches : ℚ) : WallResults :=
  match findCap mats with
  | some cap_material =>
    if cap_material.length ≠ 0 ∧ cap_material.length > 0 then
      let cap_blocks : ℤ := ⌈wall_length_inches / cap_material.length⌉
      { r with
        materials_needed := setE r.materials_needed "cap_blocks" (cap_blocks : ℚ)
        cost_breakdown := setE r.cost_breakdown "cap_blocks"
          ((cap_blocks : ℚ) * cap_material.price_per_unit) }
    else r
  | none => r

/-- The fixed `cost_estimates` table of `_calculate_total_costs`. -/
def cost_estimates (k : String) : Option ℚ :=
  if k = "gravel_base_cubic_yards" then some 25
  else if k = "sand_bed_cubic_yards" then some 30
  else if k = "mortar_bags" then some 8
  else if k = "rebar_pieces" then some 5
  else if k = "landscape_fabric_square_feet" then some (1/2)
  else if k = "drainage_pipe_feet" then some 3
  else if k = "stone_fill_tons" then some 35
  else if k = "geotextile_square_feet" then some 2
  else none

/-- The primary-quantity selection of `_calculate_total_costs`, keyed by
the material type of the catalog material found by name; unknown types
take the first value of `materials_needed`. -/
def primaryQuantity (t : MaterialType) (needed : Entries) : ℚ :=
  match t with
  | .CONCRETE | .BLOCK => getD needed "concrete_blocks" 0
  | .STONE => getD needed "stone_blocks" 0
  | .BRICK => getD needed "bricks" 0
  | .WOOD => getD needed "landscape_timbers" 0
  | _ =>
    match needed.head? with
    | some e => e.2
    | none => 0

/-- One step of the additional-cost loop of `_calculate_total_costs`:
lines with a `cost_estimates` entry are priced and accumulated, all
others are skipped. -/
def costStep (acc : ℚ × Entries) (e : String × ℚ) : ℚ × Entries :=
  match cost_estimates e.1 with
  | some est => (acc.1 + e.2 * est, setE acc.2 e.1 (e.2 * est))
  | none => acc

/-- The sum the additional-cost loop adds to the running total. -/
def extraSum (needed : Entries) : ℚ :=
  (needed.map (fun e =>
    match cost_estimates e.1 with
    | some est => e.2 * est
    | none => 0)).sum

/-- `_calculate_total_costs`: rebuilds `cost_breakdown` (clobbering any
cap line written by `_add_cap_materials`), clamps a non-positive primary
quantity to 1, prices the auxiliary lines from `cost_estimates`, and
rounds the total to cents. -/
def calculate_total_costs (mats : Catalog) (r : WallResults) : WallResults :=
  let start : ℚ × Entries :=
    match findByName mats r.primary_material.name with
    | some primary_material =>
      let q0 := primaryQuantity primary_material.material_type r.materials_needed
      let primary_quantity := if q0 ≤ 0 then 1 else q0
      let primary_cost := primary_quantity * primary_material.price_per_unit
      (primary_cost, [("primary_material", round2 primary_cost)])
    | none => (0, [])
  let folded := r.materials_needed.foldl costStep start
  { r with
    cost_breakdown := folded.2
    total_estimated_cost := some (round2 folded.1) }

/-- The `time_per_100_sqft` table of `_estimate_installation_time`
(`.get` default 10). -/
def time_per_100_sqft (t : String) : ℚ :=
  if t = "retaining_wall_blocks" then 8
  else if t = "pavers" then 12
  else if t = "stone" then 20
  else if t = "concrete" then 15
  else if t = "brick" then 18
  else if t = "timber" then 6
  else if t = "gabion" then 4
  else 10

/-- `_estimate_installation_time`: wall area clamped to 1 when it is not
positive, then hours per 100 square feet by primary material type. -/
def estimate_installation_time (r : WallResults) : ℤ :=
  let wall_area0 := r.wall_specifications.length_feet * r.wall_specifications.height_feet
  let wall_area := if wall_area0 ≤ 0 then 1 else wall_area0
  let base_time := time_per_100_sqft r.primary_material.type
  max 1 (rhe (wall_area / 100 * base_time))

/-- The category dispatch of `calculate_wall_materials`: Concrete and
Block use the concrete block formula, Stone, Brick and Wood their own,
and every other type falls back to the concrete block formula. -/
def dispatch_calc (r0 : WallResults) (material : MaterialSpec)
    (wall_length_inches wall_height_inches : ℚ) : WallResults :=
  match material.material_type with
  | .CONCRETE | .BLOCK =>
    calculate_concrete_block_wall r0 material wall_length_inches wall_height_inches
  | .STONE =>
    calculate_stone_wall r0 material wall_length_inches wall_height_inches
  | .BRICK =>
    calculate_brick_wall r0 material wall_length_inches wall_height_inches
  | .WOOD =>
    calculate_timber_wall r0 material wall_length_inches wall_height_inches
  | _ =>
    calculate_concrete_block_wall r0 material wall_length_inches wall_height_inches

/-- `calculate_wall_materials`: resolve the material (raising ValueError
when it is missing), dispatch on material type (default: the concrete
block formula), optionally add base and cap materials, total the costs,
and append the informational notes. -/
def calculate_wall_materials (mats : Catalog) (wall_length wall_height : ℚ)
    (material_id : String) (include_base include_cap : Bool) :
    Except String WallResults :=
  match get_material mats material_id with
  | none => .error ("Material " ++ material_id ++ " not found")
  | some material =>
    let wall_length_inches := wall_length * 12
    let wall_height_inches := wall_height * 12
    let r0 : WallResults :=
      { wall_specifications :=
          { length_feet := wall_length, height_feet := wall_height,
            length_inches := wall_length_inches,
            height_inches := wall_height_inches }
        primary_material :=
          { name := material.name, type := material.material_type.value,
            dimensions := toString material.length ++ " x "
              ++ toString material.width ++ " x " ++ toString material.height,
            weight_per_unit := material.weight,
            price_per_unit := material.price_per_unit }
        calculations := []
        materials_needed := []
        cost_breakdown := []
        installation_notes := []
        total_estimated_cost := none }
    let r1 := dispatch_calc r0 material wall_length_inches wall_height_inches
    let r2 := if include_base then add_base_materials r1 wall_length wall_height else r1
    let isConcreteBlock :=
      match material.material_type with
      | .CONCRETE | .BLOCK => true
      | _ => false
    let r3 :=
      if include_cap && isConcreteBlock then add_cap_materials mats r2 wall_length_inches
      else r2
    let r4 := calculate_total_costs mats r3
    .ok { r4 with
      installation_notes := r4.installation_notes ++
        [material.installation_notes,
         "Wall area: " ++ toString (round1 (wall_length * wall_height)) ++ " square feet",
         "Estimated installation time: "
           ++ toString (estimate_installation_time r4) ++ " hours"] }

/-- Result extractor: a `calculations` entry of a successful call. -/
def wallCalc (e : Except String WallResults) (key : String) : Option ℚ :=
  match e with
  | .ok r => getE r.calculations key
  | .error _ => none

/-- Result extractor: a `materials_needed` entry of a successful call. -/
def wallNeeded (e : Except String WallResults) (key : String) : Option ℚ :=
  match e with
  | .ok r => getE r.materials_needed key
  | .error _ => none

/-- Result extractor: a `cost_breakdown` entry of a successful call. -/
def wallCost (e : Except String WallResults) (key : String) : Option ℚ :=
  match e with
  | .ok r => getE r.cost_breakdown key
  | .error _ => none

/-- Result extractor: the `total_estimated_cost` of a successful call. -/
def wallTotal (e : Except String WallResults) : Option ℚ :=
  match e with
  | .ok r => r.total_estimated_cost
  | .error _ => none

/-- Result extractor: the `materials_needed` dictionary (empty on error). -/
def wallNeededList (e : Except String WallResults) : Entries :=
  match e with
  | .ok r => r.materials_needed
  | .error _ => []

/-- Result extractor: the `total_estimated_cost` of a successful call,
0 on error. -/
def wallTotalD (e : Except String WallResults) : ℚ :=
  match e with
  | .ok r => r.total_estimated_cost.getD 0
  | .error _ => 0

/-- Pointwise comparison of two entry dictionaries: same keys in the
same order, values bounded entrywise. -/
abbrev EntriesLE (l1 l2 : Entries) : Prop :=
  List.Forall₂ (fun p q => p.1 = q.1 ∧ p.2 ≤ q.2) l1 l2

/-- Whether the call returned a result rather than raising. -/
def wallOk (e : Except String WallResults) : Bool :=
  match e with
  | .ok _ => true
  | .error _ => false

/-- A database `Material` row as far as `_load_materials_from_database`
and `_convert_db_material_to_spec` read it (`None` numeric columns are
modelled as 0, matching the `if x else 0` and `or 0` conversions). -/
structure DbMaterial where
  id : String
  name : String
  material_type : String
  length_inches : ℚ
  width_inches : ℚ
  height_inches : ℚ
  weight_lbs : ℚ
  price_per_unit : ℚ
  description : String
  use_case : String
  installation_notes : String
  is_active : Bool
  deriving DecidableEq, Repr

/-- The `material_type_map` dictionary (`.get` default `OTHER`). -/
def material_type_map (s : String) : MaterialType :=
  if s = "concrete" then .CONCRETE
  else if s = "stone" then .STONE
  else if s = "brick" then .BRICK
  else if s = "block" then .BLOCK
  else if s = "wood" then .WOOD
  else if s = "metal" then .METAL
  else if s = "other" then .OTHER
  else .OTHER

/-- `_convert_db_material_to_spec`: coverage is derived from length and
height when both are non-zero, else the 0.5 fallback. -/
def convert_db_material_to_spec (m : DbMaterial) : MaterialSpec :=
  let length := m.length_inches
  let height := m.height_inches
  { id := m.id
    name := m.name
    material_type := material_type_map m.material_type
    length := length
    width := m.width_inches
    height := height
    weight := m.weight_lbs
    coverage_per_unit :=
      if length ≠ 0 ∧ height ≠ 0 then length * height / 144 else 1/2
    price_per_unit := m.price_per_unit
    description := m.description
    use_case := m.use_case
    installation_notes := m.installation_notes }

/-- `_load_materials_from_database`: only rows with `is_active` are
queried and loaded into the materials dictionary. -/
def load_materials (db : List DbMaterial) : Catalog :=
  (db.filter (fun m => m.is_active)).map
    (fun m => (m.id, convert_db_material_to_spec m))

/-! The generic job calculator of `job_calculator.py`. -/

/-- A measurements dictionary (missing keys default through `.get`). -/
abbrev Measurements := Entries

/-- `measurements.get(key, dflt)`. -/
def mget (m : Measurements) (key : String) (dflt : ℚ) : ℚ := getD m key dflt

/-- One `materials` line of a generic job result: quantity and unit. -/
structure MatQty where
  quantity : ℚ
  unit : String
  deriving DecidableEq, Repr

/-- One `layers` line of a generic job result. -/
structure Layer where
  name : String
  depth : ℚ
  material : String
  deriving DecidableEq, Repr

/-- A generic job result dictionary.  Sections a job type does not emit
(`dimensions` for pavers, `step_dimensions` for everything but stairs)
are empty lists. -/
structure JobResult where
  job_type : String
  area_sqft : ℚ
  total_depth_inches : ℚ
  dimensions : Entries
  step_dimensions : Entries
  materials : List (String × MatQty)
  layers : List Layer
  calculations : Entries
  deriving DecidableEq, Repr

/-- `PaverCalculator.calculate`. -/
def PaverCalculator_calculate (m : Measurements) : JobResult :=
  let length_ft := mget m "length_ft" 0
  let length_in := mget m "length_in" 0
  let width_ft := mget m "width_ft" 0
  let width_in := mget m "width_in" 0
  let total_length_in := length_ft * 12 + length_in
  let total_width_in := width_ft * 12 + width_in
  let area_sqft := total_length_in * total_width_in / 144
  let paver_height := mget m "paver_height" (19/8)
  let fines_depth := mget m "fines_depth" (19/8)
  let ca11_depth := mget m "ca11_depth" (29/8)
  let total_depth := paver_height + fines_depth + ca11_depth
  let pavers_needed := area_sqft * (paver_height / 12)
  let fines_needed := area_sqft * (fines_depth / 12)
  let ca11_needed := area_sqft * (ca11_depth / 12)
  { job_type := "paver_installation"
    area_sqft := round2 area_sqft
    total_depth_inches := round2 total_depth
    dimensions := []
    step_dimensions := []
    materials :=
      [("CA11", { quantity := round2 (ca11_needed / 27), unit := "cubic yards" }),
       ("Fines", { quantity := round2 (fines_needed / 27), unit := "cubic yards" }),
       ("Pavers", { quantity := round2 area_sqft, unit := "square feet" })]
    layers :=
      [{ name := "CA11 Base", depth := ca11_depth, material := "CA11" },
       { name := "Fines", depth := fines_depth, material := "Fines" },
       { name := "Pavers", depth := paver_height, material := "Pavers" }]
    calculations :=
      [("total_volume_cubic_yards",
        round2 ((pavers_needed + fines_needed + ca11_needed) / 27)),
       ("total_weight_tons",
        round2 ((pavers_needed + fines_needed + ca11_needed) * 100 / 2000))] }

/-- `WallCalculator.calculate` (the generic walls job). -/
def WallCalculator_calculate (m : Measurements) : JobResult :=
  let total_length_in := mget m "length_ft" 0 * 12 + mget m "length_in" 0
  let total_height_in := mget m "height_ft" 0 * 12 + mget m "height_in" 0
  let total_width_in := mget m "width_ft" 0 * 12 + mget m "width_in" 0
  let volume_cubic_feet := total_length_in * total_height_in * total_width_in / 1728
  let volume_cubic_yards := volume_cubic_feet / 27
  let surface_area_sqft := total_length_in * total_height_in / 144
  let blocks_needed := surface_area_sqft * mget m "blocks_per_sqft" (9/8)
  let mortar_needed := volume_cubic_feet * (1/10)
  { job_type := "wall_construction"
    area_sqft := round2 surface_area_sqft
    total_depth_inches := round2 total_width_in
    dimensions :=
      [("length_feet", round2 (total_length_in / 12)),
       ("height_feet", round2 (total_height_in / 12)),
       ("width_feet", round2 (total_width_in / 12))]
    step_dimensions := []
    materials :=
      [("Blocks", { quantity := round0 blocks_needed, unit := "blocks" }),
       ("Mortar", { quantity := round2 mortar_needed, unit := "cubic feet" }),
       ("Backfill", { quantity := round2 (volume_cubic_yards * (8/10)), unit := "cubic yards" })]
    layers := [{ name := "Wall Blocks", depth := total_width_in, material := "Blocks" }]
    calculations :=
      [("total_volume_cubic_yards", round2 volume_cubic_yards),
       ("total_weight_tons", round2 (volume_cubic_yards * (3/2)))] }

/-- `StairCalculator.calculate`.  When the step count (given or derived
as `round(totalRise / 7)`) is zero, the per-step division raises
`ZeroDivisionError`, modelled as an error value. -/
def StairCalculator_calculate (m : Measurements) : Except String JobResult :=
  let total_rise_inches := mget m "total_rise_ft" 0 * 12 + mget m "total_rise_in" 0
  let total_run_inches := mget m "total_run_ft" 0 * 12 + mget m "total_run_in" 0
  let step_count0 := mget m "step_count" 0
  let step_count :=
    if step_count0 = 0 then ((rhe (total_rise_inches / 7) : ℤ) : ℚ) else step_count0
  if step_count = 0 then .error "division by zero"
  else
    let rise_per_step := total_rise_inches / step_count
    let run_per_step := total_run_inches / step_count
    let tread_width := mget m "tread_width" 36
    let tread_area_sqft := run_per_step * tread_width / 144
    let riser_area_sqft := rise_per_step * tread_width / 144
    let total_tread_area := tread_area_sqft * step_count
    let total_riser_area := riser_area_sqft * step_count
    .ok
      { job_type := "stair_construction"
        area_sqft := round2 (total_tread_area + total_riser_area)
        total_depth_inches := round2 tread_width
        dimensions :=
          [("total_rise_feet", round2 (total_rise_inches / 12)),
           ("total_run_feet", round2 (total_run_inches / 12)),
           ("step_count", step_count)]
        step_dimensions :=
          [("rise_per_step_inches", round2 rise_per_step),
           ("run_per_step_inches", round2 run_per_step)]
        materials :=
          [("Treads", { quantity := round2 total_tread_area, unit := "square feet" }),
           ("Risers", { quantity := round2 total_riser_area, unit := "square feet" }),
           ("Stringers", { quantity := 2, unit := "pieces" })]
        layers :=
          [{ name := "Tread Material", depth := run_per_step, material := "Treads" },
           { name := "Riser Material", depth := rise_per_step, material := "Risers" }]
        calculations :=
          [("total_volume_cubic_yards",
            round2 ((total_tread_area + total_riser_area) * (1/10) / 27)),
           ("total_weight_tons",
            round2 ((total_tread_area + total_riser_area) * (1/10) * 150 / 2000))] }

/-- `StepCalculator.calculate` (a single step). -/
def StepCalculator_calculate (m : Measurements) : JobResult :=
  let total_rise_inches := mget m "rise_ft" 0 * 12 + mget m "rise_in" 0
  let total_run_inches := mget m "run_ft" 0 * 12 + mget m "run_in" 0
  let total_width_inches := mget m "width_ft" 0 * 12 + mget m "width_in" 0
  let tread_area_sqft := total_run_inches * total_width_inches / 144
  let riser_area_sqft := total_rise_inches * total_width_inches / 144
  { job_type := "step_installation"
    area_sqft := round2 (tread_area_sqft + riser_area_sqft)
    total_depth_inches := round2 total_width_inches
    dimensions :=
      [("rise_inches", round2 total_rise_inches),
       ("run_inches", round2 total_run_inches),
       ("width_inches", round2 total_width_inches)]
    step_dimensions := []
    materials :=
      [("Tread Material", { quantity := round2 tread_area_sqft, unit := "square feet" }),
       ("Riser Material", { quantity := round2 riser_area_sqft, unit := "square feet" })]
    layers :=
      [{ name := "Tread", depth := total_run_inches, material := "Tread Material" },
       { name := "Riser", depth := total_rise_inches, material := "Riser Material" }]
    calculations :=
      [("total_volume_cubic_yards",
        round2 ((tread_area_sqft + riser_area_sqft) * (1/10) / 27)),
       ("total_weight_tons",
        round2 ((tread_area_sqft + riser_area_sqft) * (1/10) * 150 / 2000))] }

/-- `JobCalculator.calculate_job`: dispatch on the four known job types,
raising ValueError for an unknown type. -/
def JobCalculator_calculate_job (job_type : String) (m : Measurements) :
    Except String JobResult :=
  if job_type = "pavers" then .ok (PaverCalculator_calculate m)
  else if job_type = "walls" then .ok (WallCalculator_calculate m)
  else if job_type = "stairs" then StairCalculator_calculate m
  else if job_type = "steps" then .ok (StepCalculator_calculate m)
  else .error ("Unknown job type: " ++ job_type)

/-- Result extractor: `area_sqft` of a successful generic job. -/
def jobArea (e : Except String JobResult) : Option ℚ :=
  match e with
  | .ok r => some r.area_sqft
  | .error _ => none

/-- Result extractor: `total_depth_inches` of a successful generic job. -/
def jobDepth (e : Except String JobResult) : Option ℚ :=
  match e with
  | .ok r => some r.total_depth_inches
  | .error _ => none

/-- Whether the generic job call returned a result rather than raising. -/
def jobOk (e : Except String JobResult) : Bool :=
  match e with
  | .ok _ => true
  | .error _ => false

/-- The error raised by a generic job call, when there is one. -/
def jobErr (e : Except String JobResult) : Option String :=
  match e with
  | .ok _ => none
  | .error s => some s

/-- The error raised by a wall calculation, when there is one. -/
def wallErr (e : Except String WallResults) : Option String :=
  match e with
  | .ok _ => none
  | .error s => some s

/-- `feet_inches_to_inches` utility. -/
def feet_inches_to_inches (feet inches : ℚ) : ℚ := feet * 12 + inches

/-- `inches_to_feet_inches` utility: `int(total // 12)` and `total % 12`
(Python modulo, remainder taken non-negative for the positive divisor). -/
def inches_to_feet_inches (total_inches : ℚ) : ℤ × ℚ :=
  (⌊total_inches / 12⌋, total_inches - 12 * (⌊total_inches / 12⌋ : ℚ))

/-! Concrete fixtures used by the scenario theorems. -/

/-- The standard block of Scenario A: 12 x 6 x 4 inches at 4.50 per
unit, in the Block category. -/
def specA : MaterialSpec :=
  { id := "standard_block", name := "Standard Block", material_type := .BLOCK,
    length := 12, width := 6, height := 4, weight := 30,
    coverage_per_unit := 1/3, price_per_unit := 9/2,
    description := "", use_case := "", installation_notes := "" }

/-- A catalog holding only the standard block. -/
def catalogA : Catalog := [("standard_block", specA)]

/-- A paver-category material, 12 x 6 x 4 inches. -/
def specPaver : MaterialSpec :=
  { id := "garden_paver", name := "Garden Paver", material_type := .PAVERS,
    length := 12, width := 6, height := 4, weight := 10,
    coverage_per_unit := 1/3, price_per_unit := 3,
    description := "", use_case := "", installation_notes := "" }

/-- A catalog holding only the paver material. -/
def catalogP : Catalog := [("garden_paver", specPaver)]

/-- A cap material: its name contains "cap", length 12, 2.00 per unit. -/
def specCap : MaterialSpec :=
  { id := "cap_block", name := "Cap Block", material_type := .CONCRETE,
    length := 12, width := 6, height := 2, weight := 15,
    coverage_per_unit := 1/6, price_per_unit := 2,
    description := "", use_case := "", installation_notes := "" }

/-- A catalog holding the standard block and a cap material. -/
def catalogC : Catalog := [("standard_block", specA), ("cap_block", specCap)]

/-- Scenario A: 20 ft x 4 ft wall of standard blocks with base and cap
requested. -/
def scenA : Except String WallResults :=
  calculate_wall_materials catalogA 20 4 "standard_block" true true

/-- Scenario A against the catalog that also has a cap material. -/
def scenC : Except String WallResults :=
  calculate_wall_materials catalogC 20 4 "standard_block" true true

/-- A zero-length wall with a resolvable material. -/
def scenZeroLen : Except String WallResults :=
  calculate_wall_materials catalogA 0 4 "standard_block" true true

/-- A 20 ft x 4 ft wall built from the paver-category material. -/
def scenP : Except String WallResults :=
  calculate_wall_materials catalogP 20 4 "garden_paver" true true

/-- A degenerate wall with negative length and zero height. -/
def scenNeg : Except String WallResults :=
  calculate_wall_materials catalogA (-100) 0 "standard_block" true true

/-- Scenario B measurements: 20 ft 6 in by 15 ft 0 in, default layer
depths. -/
def measB : Measurements :=
  [("length_ft", 20), ("length_in", 6), ("width_ft", 15), ("width_in", 0)]

/-- Scenario B: the pavers job on the Scenario B measurements. -/
def scenB : Except String JobResult := JobCalculator_calculate_job "pavers" measB

/-- A database row that is inactive (soft-deleted). -/
def dbInactive : DbMaterial :=
  { id := "m1", name := "Retired Block", material_type := "block",
    length_inches := 16, width_inches := 8, height_inches := 8,
    weight_lbs := 35, price_per_unit := 5/2,
    description := "", use_case := "", installation_notes := "",
    is_active := false }

/-- C1: for a 20 ft x 4 ft wall with a Block-category material of unit
length 12 in, unit height 4 in and price 4.50, `calculate_wall_materials`
reports 20 blocks per course, 12 courses, 240 total blocks, and a
primary-material cost line of 1080.00. -/
theorem C1_scenario_A :
    wallCalc scenA "blocks_per_course" = some 20 ∧
    wallCalc scenA "number_of_courses" = some 12 ∧
    wallCalc scenA "total_blocks" = some 240 ∧
    wallCost scenA "primary_material" = some 1080 := by
  with_unfolding_all decide

/-- C2 counterexample: a call with `wallLengthFeet = 0` and a resolvable
material does not fail; it returns a `WallResults` value, refuting the
claim that non-positive dimensions raise `InvalidDimensionError`. -/
theorem C2_counterexample : wallOk scenZeroLen = true := by
  with_unfolding_all decide

/-- C5 counterexample: the stairs job with an empty measurements
dictionary does not succeed; the derived step count is
`round(0 / 7) = 0` and the per-step division raises, refuting the claim
that every supported job type succeeds on empty measurements. -/
theorem C5_counterexample : jobOk (JobCalculator_calculate_job "stairs" []) = false := by
  with_unfolding_all decide

/-- C5 amended: on an empty measurements dictionary the pavers, walls
and steps jobs succeed with `area_sqft = 0` (every missing field
defaults to 0), but the stairs job fails with a division by zero. -/
theorem C5_empty_measurements :
    jobArea (JobCalculator_calculate_job "pavers" []) = some 0 ∧
    jobArea (JobCalculator_calculate_job "walls" []) = some 0 ∧
    jobArea (JobCalculator_calculate_job "steps" []) = some 0 ∧
    jobErr (JobCalculator_calculate_job "stairs" []) = some "division by zero" := by
  with_unfolding_all decide

/-- C7 counterexample: on the Scenario B pavers job the returned
`total_depth_inches` is 8.38 (the layer sum 8.375 rounded to two
decimal digits, ties to even), not 8.375 as claimed. -/
theorem C7_counterexample :
    jobDepth scenB = some (419/50) ∧ ((419 : ℚ)/50 ≠ 67/8) := by
  with_unfolding_all decide

/-- C7 amended: Scenario B returns `area_sqft = 307.5` and
`total_depth_inches = round(8.375, 2) = 8.38`. -/
theorem C7_scenario_B :
    jobArea scenB = some (615/2) ∧ jobDepth scenB = some (419/50) := by
  with_unfolding_all decide

/-- C3 counterexample: for a paver-category material of unit height 4 in
and a 4 ft wall, `calculate_wall_materials` reports 12 courses (the
concrete block formula, no paver keys at all), not
`min(ceil(48/4), 3) = 3` as claimed. -/
theorem C3_counterexample :
    wallCalc scenP "number_of_courses" = some 12 ∧
    wallCalc scenP "pavers_per_course" = none ∧
    ((12 : ℚ) ≠ ((min ⌈((4 : ℚ) * 12) / 4⌉ 3 : ℤ) : ℚ)) := by
  with_unfolding_all decide

/-- C4: with a catalog containing a cap material (name "Cap Block",
length 12, price 2.00), a 20 ft x 4 ft block wall with `include_cap`
records `cap_blocks = ceil(240/12) = 20` in `materials_needed`, but the
final `cost_breakdown` has no cap line and `total_estimated_cost` is
1761.00, excluding the 20 x 2.00 = 40.00 cap cost the claim (and
`_add_cap_materials` itself) intends: `_calculate_total_costs` rebuilds
`cost_breakdown` from scratch, discarding the cap entry.  The second
half of the claim holds: with no cap material in the catalog the call
still succeeds and the result has no cap-blocks key. -/
theorem C4_cap_cost_dropped :
    wallNeeded scenC "cap_blocks" = some 20 ∧
    (20 : ℚ) * specCap.price_per_unit = 40 ∧
    wallCost scenC "cap_blocks" = none ∧
    wallTotal scenC = some 1761 ∧
    wallOk scenA = true ∧ wallNeeded scenA "cap_blocks" = none := by
  with_unfolding_all decide

/-- C8 counterexample: a wall of length -100 ft and height 0 ft has
primary quantity 0, the clamp prices one unit (4.50), yet the returned
total is -220.50, which is negative and below one unit price, refuting
the unrestricted claim. -/
theorem C8_counterexample :
    wallCost scenNeg "primary_material" = some (9/2) ∧
    wallTotal scenNeg = some (-441/2) ∧ ((-441 : ℚ)/2 < 0) := by
  with_unfolding_all decide

/-- C10: converting whole feet plus an inch remainder in [0, 12) to
total inches and back recovers the pair exactly. -/
theorem C10_roundtrip (f : ℕ) (i : ℚ) (h0 : 0 ≤ i) (h12 : i < 12) :
    inches_to_feet_inches (feet_inches_to_inches (f : ℚ) i) = ((f : ℤ), i) := by
  have h1 : feet_inches_to_inches (f : ℚ) i / 12 = ((f : ℤ) : ℚ) + i / 12 := by
    rw [feet_inches_to_inches]
    push_cast
    ring
  have h2 : ⌊i / 12⌋ = 0 := by
    rw [Int.floor_eq_zero_iff]
    constructor
    · positivity
    · exact (div_lt_one (by norm_num)).mpr h12
  have h3 : ⌊feet_inches_to_inches (f : ℚ) i / 12⌋ = (f : ℤ) := by
    rw [h1, Int.floor_int_add, h2, add_zero]
  rw [inches_to_feet_inches, h3, Prod.mk.injEq]
  refine ⟨rfl, ?_⟩
  rw [feet_inches_to_inches]
  push_cast
  ring

/-- C10 witness: 2 feet 5.5 inches survives the round trip. -/
theorem C10_witness :
    (0 : ℚ) ≤ 11/2 ∧ (11/2 : ℚ) < 12 ∧
    inches_to_feet_inches (feet_inches_to_inches ((2 : ℕ) : ℚ) (11/2))
      = (((2 : ℕ) : ℤ), 11/2) :=
  ⟨by norm_num, by norm_num, C10_roundtrip 2 (11/2) (by norm_num) (by norm_num)⟩

/-- Looking up a key that no entry of the catalog carries yields
nothing. -/
theorem get_material_eq_none (cat : Catalog) (mid : String)
    (h : ∀ p ∈ cat, p.1 ≠ mid) : get_material cat mid = none := by
  induction cat with
  | nil => rfl
  | cons p rest ih =>
    rw [get_material]
    rw [if_neg (h p (List.mem_cons_self p rest))]
    exact ih fun q hq => h q (List.mem_cons_of_mem p hq)

/-- Every id in the loaded catalog is the id of an active database
row. -/
theorem load_materials_ids (db : List DbMaterial) (p : String × MaterialSpec)
    (hp : p ∈ load_materials db) :
    ∃ m ∈ db, m.is_active = true ∧ p.1 = m.id := by
  rw [load_materials] at hp
  obtain ⟨m, hmem, hq⟩ := List.mem_map.mp hp
  refine ⟨m, (List.mem_filter.mp hmem).1, ?_, ?_⟩
  · have := (List.mem_filter.mp hmem).2
    simpa using this
  · rw [← hq]

/-- C6: when every active database row has an id other than the one
requested (the id is absent, or its row is inactive), the wall
calculation fails with the material-not-found error and returns no
result. -/
theorem C6_material_not_found (db : List DbMaterial) (L H : ℚ)
    (ib ic : Bool) (mid : String)
    (h : ∀ m ∈ db, m.is_active = true → m.id ≠ mid) :
    calculate_wall_materials (load_materials db) L H mid ib ic
      = .error ("Material " ++ mid ++ " not found") := by
  have hnone : get_material (load_materials db) mid = none := by
    refine get_material_eq_none _ _ fun p hp => ?_
    obtain ⟨m, hmem, hact, hid⟩ := load_materials_ids db p hp
    rw [hid]
    exact h m hmem hact
  rw [calculate_wall_materials, hnone]

/-- C6 witness: a catalog loaded from a single inactive row rejects that
row's id. -/
theorem C6_witness :
    (∀ m ∈ [dbInactive], m.is_active = true → m.id ≠ "m1") ∧
    calculate_wall_materials (load_materials [dbInactive]) 10 3 "m1" true true
      = .error ("Material " ++ "m1" ++ " not found") :=
  ⟨by decide, C6_material_not_found [dbInactive] 10 3 true true "m1" (by decide)⟩

/-- C2 amended: the wall calculator performs no dimension validation;
with a resolvable material (with positive unit dimensions, so no branch
divides by zero) a call with non-positive length or height still
returns a result. -/
theorem C2_no_dimension_validation (mats : Catalog) (mid : String)
    (m : MaterialSpec) (L H : ℚ) (ib ic : Bool)
    (hm : get_material mats mid = some m)
    (hlen : 0 < m.length) (hht : 0 < m.height) (hcov : 0 < m.coverage_per_unit)
    (hLH : L ≤ 0 ∨ H ≤ 0) :
    wallOk (calculate_wall_materials mats L H mid ib ic) = true := by
  rw [calculate_wall_materials, hm]
  cases m.material_type <;> rfl

/-- C2 witness: a 0 ft x 4 ft wall of standard blocks returns a
result. -/
theorem C2_witness :
    get_material catalogA "standard_block" = some specA ∧
    (0 : ℚ) < specA.length ∧ (0 : ℚ) < specA.height ∧
    (0 : ℚ) < specA.coverage_per_unit ∧ ((0 : ℚ) ≤ 0 ∨ (4 : ℚ) ≤ 0) ∧
    wallOk (calculate_wall_materials catalogA 0 4 "standard_block" true true) = true :=
  ⟨by with_unfolding_all decide, by norm_num [specA], by norm_num [specA],
   by norm_num [specA], Or.inl le_rfl,
   C2_no_dimension_validation catalogA "standard_block" specA 0 4 true true
     (by with_unfolding_all decide) (by norm_num [specA]) (by norm_num [specA])
     (by norm_num [specA]) (Or.inl le_rfl)⟩

/-- Adding base materials never touches the `calculations` section. -/
@[simp] theorem add_base_materials_calculations (r : WallResults) (L H : ℚ) :
    (add_base_materials r L H).calculations = r.calculations := rfl

/-- Adding cap materials never touches the `calculations` section. -/
@[simp] theorem add_cap_materials_calculations (mats : Catalog)
    (r : WallResults) (Lin : ℚ) :
    (add_cap_materials mats r Lin).calculations = r.calculations := by
  rw [add_cap_materials]
  cases findCap mats with
  | none => rfl
  | some cap =>
    dsimp only
    split
    · rfl
    · rfl

/-- Totalling costs never touches the `calculations` section. -/
@[simp] theorem calculate_total_costs_calculations (mats : Catalog)
    (r : WallResults) :
    (calculate_total_costs mats r).calculations = r.calculations := rfl

/-- C3 amended: a paver-category material is dispatched to the concrete
block formula, so the reported course count is the uncapped
`ceil(wallHeightInches / unitHeight)` and no paver-specific key is
produced. -/
theorem C3_paver_uses_block_formula (mats : Catalog) (mid : String)
    (m : MaterialSpec) (L H : ℚ) (ib ic : Bool)
    (hm : get_material mats mid = some m)
    (ht : m.material_type = .PAVERS) (hh : 0 < m.height) (hH : 0 < H) :
    wallCalc (calculate_wall_materials mats L H mid ib ic) "number_of_courses"
      = some ((⌈(H * 12) / m.height⌉ : ℤ) : ℚ) ∧
    wallCalc (calculate_wall_materials mats L H mid ib ic) "pavers_per_course"
      = none := by
  constructor <;>
    simp [calculate_wall_materials, hm, ht, wallCalc, dispatch_calc,
      apply_ite (fun (r : WallResults) => r.calculations),
      calculate_concrete_block_wall, getE, hh.ne']

/-- The banker rounding of a rational is at least its floor. -/
theorem rhe_lb (q : ℚ) : ⌊q⌋ ≤ rhe q := by
  simp only [rhe]
  split_ifs <;> omega

/-- The banker rounding of a rational is at most its floor plus one. -/
theorem rhe_ub (q : ℚ) : rhe q ≤ ⌊q⌋ + 1 := by
  simp only [rhe]
  split_ifs <;> omega

/-- Rounding half to even is monotone. -/
theorem rhe_mono {p q : ℚ} (h : p ≤ q) : rhe p ≤ rhe q := by
  have hf : ⌊p⌋ ≤ ⌊q⌋ := Int.floor_le_floor h
  rcases lt_or_eq_of_le hf with hlt | heq
  · have h1 := rhe_ub p
    have h2 := rhe_lb q
    omega
  · have hr : p - (⌊p⌋ : ℚ) ≤ q - (⌊p⌋ : ℚ) := by linarith
    simp only [rhe, ← heq]
    split_ifs <;> first | omega | linarith

/-- A rational in `[0, 1/2)` rounds to zero. -/
theorem rhe_eq_zero {q : ℚ} (h0 : 0 ≤ q) (hlt : q < 1/2) : rhe q = 0 := by
  have hf : ⌊q⌋ = 0 := Int.floor_eq_zero_iff.mpr ⟨h0, by linarith⟩
  have hc : q - ((⌊q⌋ : ℤ) : ℚ) < 1/2 := by
    rw [hf]
    push_cast
    linarith
  simp only [rhe]
  rw [if_pos hc, hf]

/-- `roundTo` is monotone. -/
theorem roundTo_mono (n : ℕ) {p q : ℚ} (h : p ≤ q) : roundTo n p ≤ roundTo n q := by
  unfold roundTo
  have h1 : p * (10 : ℚ) ^ n ≤ q * (10 : ℚ) ^ n :=
    mul_le_mul_of_nonneg_right h (by positivity)
  have h2 := rhe_mono h1
  have h3 : ((rhe (p * (10 : ℚ) ^ n) : ℤ) : ℚ) ≤ ((rhe (q * (10 : ℚ) ^ n) : ℤ) : ℚ) :=
    Int.cast_le.mpr h2
  exact div_le_div_of_nonneg_right h3 (by positivity) |>.trans_eq rfl

/-- `roundTo` of zero is zero. -/
theorem roundTo_zero (n : ℕ) : roundTo n 0 = 0 := by
  unfold roundTo
  rw [zero_mul, rhe_eq_zero le_rfl (by norm_num)]
  norm_num

/-- `roundTo` preserves nonnegativity. -/
theorem roundTo_nonneg (n : ℕ) {q : ℚ} (h : 0 ≤ q) : 0 ≤ roundTo n q := by
  have := roundTo_mono n h
  rwa [roundTo_zero] at this

/-- Assigning one key leaves lookups of other keys unchanged. -/
theorem getE_setE_ne {l : Entries} {k key : String} {v : ℚ} (h : k ≠ key) :
    getE (setE l k v) key = getE l key := by
  induction l with
  | nil => simp [setE, getE, h]
  | cons p rest ih =>
    obtain ⟨pk, pv⟩ := p
    rw [setE]
    by_cases hpk : pk = k
    · rw [if_pos hpk, getE, getE]
      subst hpk
      rw [if_neg h, if_neg h]
    · rw [if_neg hpk, getE, getE, ih]

/-- Assigning one key leaves defaulted lookups of other keys unchanged. -/
theorem getD_setE_ne {l : Entries} {k key : String} {v d : ℚ} (h : k ≠ key) :
    getD (setE l k v) key d = getD l key d := by
  simp [getD, getE_setE_ne h]

/-- Values after an assignment: all old values plus the new value. -/
theorem setE_forall_val {l : Entries} {k : String} {v : ℚ} {P : ℚ → Prop}
    (hl : ∀ p ∈ l, P p.2) (hv : P v) : ∀ p ∈ setE l k v, P p.2 := by
  induction l with
  | nil =>
    intro p hp
    simp only [setE, List.mem_singleton] at hp
    rw [hp]
    exact hv
  | cons e rest ih =>
    intro p hp
    rw [setE] at hp
    split_ifs at hp
    · rcases List.mem_cons.mp hp with h1 | h1
      · rw [h1]
        exact hv
      · exact hl p (List.mem_cons_of_mem e h1)
    · rcases List.mem_cons.mp hp with h1 | h1
      · rw [h1]
        exact hl e (List.mem_cons_self e rest)
      · exact ih (fun q hq => hl q (List.mem_cons_of_mem e hq)) p h1

/-- Keys after an assignment: all old keys plus the new key. -/
theorem setE_forall_key {l : Entries} {k : String} {v : ℚ} {Q : String → Prop}
    (hl : ∀ p ∈ l, Q p.1) (hk : Q k) : ∀ p ∈ setE l k v, Q p.1 := by
  induction l with
  | nil =>
    intro p hp
    simp only [setE, List.mem_singleton] at hp
    rw [hp]
    exact hk
  | cons e rest ih =>
    intro p hp
    rw [setE] at hp
    split_ifs at hp with he
    · rcases List.mem_cons.mp hp with h1 | h1
      · rw [h1]
        exact he ▸ hk
      · exact hl p (List.mem_cons_of_mem e h1)
    · rcases List.mem_cons.mp hp with h1 | h1
      · rw [h1]
        exact hl e (List.mem_cons_self e rest)
      · exact ih (fun q hq => hl q (List.mem_cons_of_mem e hq)) p h1

/-- First component of one pricing step. -/
theorem costStep_fst (acc : ℚ × Entries) (e : String × ℚ) :
    (costStep acc e).1 = acc.1 +
      (match cost_estimates e.1 with
       | some est => e.2 * est
       | none => 0) := by
  rw [costStep]
  cases h : cost_estimates e.1 <;> simp [h]

/-- `extraSum` of a cons. -/
theorem extraSum_cons (e : String × ℚ) (rest : Entries) :
    extraSum (e :: rest) =
      (match cost_estimates e.1 with
       | some est => e.2 * est
       | none => 0) + extraSum rest := by
  simp [extraSum]

/-- The pricing fold adds `extraSum` to the running total. -/
theorem foldl_costStep_fst (needed : Entries) :
    ∀ init : ℚ × Entries,
      (needed.foldl costStep init).1 = init.1 + extraSum needed := by
  induction needed with
  | nil =>
    intro init
    simp [extraSum]
  | cons e rest ih =>
    intro init
    rw [List.foldl_cons, ih, costStep_fst, extraSum_cons]
    ring

/-- The pricing fold leaves breakdown keys that are not material lines
unchanged. -/
theorem foldl_costStep_getE (needed : Entries) (key : String) :
    ∀ init : ℚ × Entries, (∀ p ∈ needed, p.1 ≠ key) →
      getE (needed.foldl costStep init).2 key = getE init.2 key := by
  induction needed with
  | nil =>
    intro init _
    rfl
  | cons e rest ih =>
    intro init h
    rw [List.foldl_cons]
    rw [ih _ fun p hp => h p (List.mem_cons_of_mem e hp)]
    rw [costStep]
    cases hce : cost_estimates e.1
    · rfl
    · exact getE_setE_ne (h e (List.mem_cons_self e rest))

/-- Every estimate of the fixed price table is nonnegative. -/
theorem cost_estimates_nonneg {k : String} {v : ℚ}
    (h : cost_estimates k = some v) : 0 ≤ v := by
  rw [cost_estimates] at h
  split_ifs at h <;>
    simp only [Option.some.injEq, reduceCtorEq] at h <;>
    rw [← h] <;> norm_num

/-- `extraSum` of nonnegative lines is nonnegative. -/
theorem extraSum_nonneg (needed : Entries)
    (h : ∀ p ∈ needed, 0 ≤ p.2) : 0 ≤ extraSum needed := by
  induction needed with
  | nil => simp [extraSum]
  | cons e rest ih =>
    rw [extraSum_cons]
    have h1 : 0 ≤
        (match cost_estimates e.1 with
         | some est => e.2 * est
         | none => (0 : ℚ)) := by
      cases hce : cost_estimates e.1 with
      | none => exact le_rfl
      | some est =>
        exact mul_nonneg (h e (List.mem_cons_self e rest)) (cost_estimates_nonneg hce)
    have h2 := ih fun p hp => h p (List.mem_cons_of_mem e hp)
    linarith

/-- `extraSum` is monotone in the line values. -/
theorem extraSum_mono {l1 l2 : Entries} (h : EntriesLE l1 l2) :
    extraSum l1 ≤ extraSum l2 := by
  induction h with
  | nil => exact le_rfl
  | @cons p q l1' l2' hpq _ ih =>
    rw [extraSum_cons, extraSum_cons, hpq.1]
    have hterm :
        (match cost_estimates q.1 with
         | some est => p.2 * est
         | none => (0 : ℚ)) ≤
        (match cost_estimates q.1 with
         | some est => q.2 * est
         | none => (0 : ℚ)) := by
      cases hce : cost_estimates q.1 with
      | none => exact le_rfl
      | some est => exact mul_le_mul_of_nonneg_right hpq.2 (cost_estimates_nonneg hce)
    linarith

/-- Parallel assignment preserves the entrywise bound. -/
theorem EntriesLE_setE {l1 l2 : Entries} {k : String} {v1 v2 : ℚ}
    (h : EntriesLE l1 l2) (hv : v1 ≤ v2) :
    EntriesLE (setE l1 k v1) (setE l2 k v2) := by
  induction h with
  | nil => exact List.Forall₂.cons ⟨rfl, hv⟩ List.Forall₂.nil
  | @cons p q l1' l2' hpq hrest ih =>
    rw [setE, setE]
    by_cases hp : p.1 = k
    · rw [if_pos hp, if_pos (hpq.1 ▸ hp)]
      exact List.Forall₂.cons ⟨hpq.1, hv⟩ hrest
    · rw [if_neg hp, if_neg (hpq.1 ▸ hp)]
      exact List.Forall₂.cons hpq ih

/-- Defaulted lookup is monotone under the entrywise bound. -/
theorem EntriesLE_getD {l1 l2 : Entries} (h : EntriesLE l1 l2)
    (key : String) (d : ℚ) : getD l1 key d ≤ getD l2 key d := by
  induction h with
  | nil => exact le_rfl
  | @cons p q l1' l2' hpq _ ih =>
    obtain ⟨pk, pv⟩ := p
    obtain ⟨qk, qv⟩ := q
    have hk : pk = qk := hpq.1
    subst hk
    by_cases hkey : pk = key
    · simp [getD, getE, hkey]
      exact hpq.2
    · simpa [getD, getE, hkey] using ih

/-- The head value (the fallback primary quantity) is monotone under
the entrywise bound. -/
theorem EntriesLE_headval {l1 l2 : Entries} (h : EntriesLE l1 l2) :
    (match l1.head? with
     | some e => e.2
     | none => (0 : ℚ)) ≤
    (match l2.head? with
     | some e => e.2
     | none => (0 : ℚ)) := by
  cases h with
  | nil => exact le_rfl
  | cons hpq _ => simpa using hpq.2

/-- The primary-quantity selection is monotone under the entrywise
bound, whatever the material type. -/
theorem primaryQuantity_mono (t : MaterialType) {l1 l2 : Entries}
    (h : EntriesLE l1 l2) : primaryQuantity t l1 ≤ primaryQuantity t l2 := by
  cases t <;> simp only [primaryQuantity] <;>
    first
    | exact EntriesLE_getD h _ _
    | exact EntriesLE_headval h

/-- The 1-clamp is monotone when the larger quantity is integral. -/
theorem clamp_mono_int {q1 q2 : ℚ} (h : q1 ≤ q2) (hz : ∃ z : ℤ, q2 = (z : ℚ)) :
    (if q1 ≤ 0 then (1 : ℚ) else q1) ≤ (if q2 ≤ 0 then (1 : ℚ) else q2) := by
  obtain ⟨z, rfl⟩ := hz
  split_ifs with h1 h2 h2
  · exact le_rfl
  · have hz0 : (0 : ℚ) < (z : ℚ) := lt_of_not_le h2
    have hz1 : (1 : ℤ) ≤ z := by exact_mod_cast hz0
    exact_mod_cast hz1
  · linarith
  · exact h

/-- The total written by `_calculate_total_costs` when the primary
material resolves by name: clamped primary quantity times unit price
plus the estimated extra lines, rounded to cents. -/
theorem calculate_total_costs_total (mats : Catalog) (r : WallResults)
    (m : MaterialSpec) (hname : findByName mats r.primary_material.name = some m) :
    (calculate_total_costs mats r).total_estimated_cost =
      some (round2
        ((if primaryQuantity m.material_type r.materials_needed ≤ 0 then 1
          else primaryQuantity m.material_type r.materials_needed) *
            m.price_per_unit + extraSum r.materials_needed)) := by
  simp only [calculate_total_costs, hname, foldl_costStep_fst]

/-- The primary cost line written by `_calculate_total_costs` when the
primary material resolves by name and no material line reuses its
key. -/
theorem calculate_total_costs_primary_line (mats : Catalog) (r : WallResults)
    (m : MaterialSpec) (hname : findByName mats r.primary_material.name = some m)
    (hkeys : ∀ p ∈ r.materials_needed, p.1 ≠ "primary_material") :
    getE (calculate_total_costs mats r).cost_breakdown "primary_material" =
      some (round2
        ((if primaryQuantity m.material_type r.materials_needed ≤ 0 then 1
          else primaryQuantity m.material_type r.materials_needed) *
            m.price_per_unit)) := by
  simp only [calculate_total_costs, hname]
  rw [foldl_costStep_getE _ _ _ hkeys]
  simp [getE]

/-- The concrete block formula divides by positive unit sizes even when
the material sizes are falsy (the 16 and 8 defaults). -/
theorem concrete_len_pos (m : MaterialSpec) (h : 0 ≤ m.length) :
    (0 : ℚ) < (if m.length = 0 then 16 else m.length) := by
  split_ifs with h0
  · norm_num
  · exact lt_of_le_of_ne h (Ne.symm h0)

/-- As `concrete_len_pos`, for the unit height. -/
theorem concrete_ht_pos (m : MaterialSpec) (h : 0 ≤ m.height) :
    (0 : ℚ) < (if m.height = 0 then 8 else m.height) := by
  split_ifs with h0
  · norm_num
  · exact lt_of_le_of_ne h (Ne.symm h0)

/-- All concrete-branch material lines are nonnegative for nonnegative
wall dimensions. -/
theorem concrete_needed_nonneg (r : WallResults) (m : MaterialSpec)
    (Lin Hin : ℚ) (hL : 0 ≤ Lin) (hH : 0 ≤ Hin)
    (hlen : 0 ≤ m.length) (hht : 0 ≤ m.height) :
    ∀ p ∈ (calculate_concrete_block_wall r m Lin Hin).materials_needed, 0 ≤ p.2 := by
  intro p hp
  simp only [calculate_concrete_block_wall, List.mem_cons, List.not_mem_nil,
    or_false] at hp
  have htb : (0 : ℤ) ≤
      ⌈Lin / (if m.length = 0 then 16 else m.length)⌉ *
        ⌈Hin / (if m.height = 0 then 8 else m.height)⌉ :=
    mul_nonneg (Int.ceil_nonneg (div_nonneg hL (concrete_len_pos m hlen).le))
      (Int.ceil_nonneg (div_nonneg hH (concrete_ht_pos m hht).le))
  rcases hp with rfl | rfl | rfl | rfl
  · dsimp only
    exact_mod_cast htb
  · have h1 : (0 : ℚ) ≤
        ((⌈Lin / (if m.length = 0 then 16 else m.length)⌉ *
          ⌈Hin / (if m.height = 0 then 8 else m.height)⌉ : ℤ) : ℚ) * (3/10) :=
      mul_nonneg (by exact_mod_cast htb) (by norm_num)
    dsimp only
    exact_mod_cast Int.ceil_nonneg h1
  · dsimp only
    have h2 : (0 : ℤ) ≤ ⌈Lin / (48 : ℚ)⌉ := Int.ceil_nonneg (div_nonneg hL (by norm_num))
    exact_mod_cast h2
  · exact roundTo_nonneg 2 (by positivity)

/-- All stone-branch material lines are nonnegative for nonnegative wall
dimensions. -/
theorem stone_needed_nonneg (r : WallResults) (m : MaterialSpec)
    (Lin Hin : ℚ) (hL : 0 ≤ Lin) (hH : 0 ≤ Hin)
    (hcov : 0 < m.coverage_per_unit) :
    ∀ p ∈ (calculate_stone_wall r m Lin Hin).materials_needed, 0 ≤ p.2 := by
  intro p hp
  simp only [calculate_stone_wall, List.mem_cons, List.not_mem_nil, or_false] at hp
  have hst : (0 : ℤ) ≤ ⌈Lin * Hin / 144 / m.coverage_per_unit⌉ :=
    Int.ceil_nonneg (div_nonneg (by positivity) hcov.le)
  rcases hp with rfl | rfl | rfl
  · dsimp only
    exact_mod_cast hst
  · have h1 : (0 : ℚ) ≤ ((⌈Lin * Hin / 144 / m.coverage_per_unit⌉ : ℤ) : ℚ) * (1/10) :=
      mul_nonneg (by exact_mod_cast hst) (by norm_num)
    dsimp only
    exact_mod_cast Int.ceil_nonneg h1
  · exact roundTo_nonneg 2 (by positivity)

/-- All brick-branch material lines are nonnegative for nonnegative wall
dimensions. -/
theorem brick_needed_nonneg (r : WallResults) (m : MaterialSpec)
    (Lin Hin : ℚ) (hL : 0 ≤ Lin) (hH : 0 ≤ Hin)
    (hlen : 0 ≤ m.length) (hht : 0 ≤ m.height) :
    ∀ p ∈ (calculate_brick_wall r m Lin Hin).materials_needed, 0 ≤ p.2 := by
  intro p hp
  simp only [calculate_brick_wall, List.mem_cons, List.not_mem_nil, or_false] at hp
  have htb : (0 : ℤ) ≤ ⌈Lin / (m.length + 3/8)⌉ * ⌈Hin / (m.height + 3/8)⌉ :=
    mul_nonneg (Int.ceil_nonneg (div_nonneg hL (by linarith)))
      (Int.ceil_nonneg (div_nonneg hH (by linarith)))
  rcases hp with rfl | rfl | rfl
  · dsimp only
    exact_mod_cast htb
  · have h1 : (0 : ℚ) ≤
        ((⌈Lin / (m.length + 3/8)⌉ * ⌈Hin / (m.height + 3/8)⌉ : ℤ) : ℚ) * (5/100) :=
      mul_nonneg (by exact_mod_cast htb) (by norm_num)
    dsimp only
    exact_mod_cast Int.ceil_nonneg h1
  · dsimp only
    refine roundTo_nonneg 2 (mul_nonneg ?_ (by norm_num))
    exact_mod_cast htb

/-- All timber-branch material lines are nonnegative for nonnegative
wall dimensions. -/
theorem timber_needed_nonneg (r : WallResults) (m : MaterialSpec)
    (Lin Hin : ℚ) (hL : 0 ≤ Lin) (hH : 0 ≤ Hin)
    (hlen : 0 < m.length) (hht : 0 < m.height) :
    ∀ p ∈ (calculate_timber_wall r m Lin Hin).materials_needed, 0 ≤ p.2 := by
  intro p hp
  simp only [calculate_timber_wall, List.mem_cons, List.not_mem_nil, or_false] at hp
  have htb : (0 : ℤ) ≤ ⌈Lin / m.length⌉ * ⌈Hin / m.height⌉ :=
    mul_nonneg (Int.ceil_nonneg (div_nonneg hL hlen.le))
      (Int.ceil_nonneg (div_nonneg hH hht.le))
  rcases hp with rfl | rfl | rfl
  · dsimp only
    exact_mod_cast htb
  · have h2 : (0 : ℤ) ≤ ⌈Lin / m.length⌉ * ⌈Hin / m.height⌉ * 2 :=
      mul_nonneg htb (by norm_num)
    dsimp only
    exact_mod_cast h2
  · exact roundTo_nonneg 2 (by positivity)

/-- All dispatch material lines are nonnegative for nonnegative wall
dimensions, given the catalog invariants. -/
theorem dispatch_needed_nonneg (r : WallResults) (m : MaterialSpec)
    (Lin Hin : ℚ) (hL : 0 ≤ Lin) (hH : 0 ≤ Hin)
    (hlen : 0 < m.length) (hht : 0 < m.height) (hcov : 0 < m.coverage_per_unit) :
    ∀ p ∈ (dispatch_calc r m Lin Hin).materials_needed, 0 ≤ p.2 := by
  rw [dispatch_calc]
  rcases hty : m.material_type <;>
    first
    | exact concrete_needed_nonneg r m Lin Hin hL hH hlen.le hht.le
    | exact stone_needed_nonneg r m Lin Hin hL hH hcov
    | exact brick_needed_nonneg r m Lin Hin hL hH hlen.le hht.le
    | exact timber_needed_nonneg r m Lin Hin hL hH hlen hht

/-- No dispatch material line uses the reserved primary-cost key. -/
theorem dispatch_needed_keys (r : WallResults) (m : MaterialSpec)
    (Lin Hin : ℚ) :
    ∀ p ∈ (dispatch_calc r m Lin Hin).materials_needed,
      p.1 ≠ "primary_material" := by
  rw [dispatch_calc]
  rcases m.material_type <;> intro p hp <;>
    simp only [calculate_concrete_block_wall, calculate_stone_wall,
      calculate_brick_wall, calculate_timber_wall, List.mem_cons,
      List.not_mem_nil, or_false] at hp <;>
    first
    | (rcases hp with rfl | rfl | rfl | rfl <;> simp)
    | (rcases hp with rfl | rfl | rfl <;> simp)

/-- Concrete-branch material lines grow entrywise with the wall
length. -/
theorem concrete_needed_le (r r' : WallResults) (m : MaterialSpec)
    (Lin1 Lin2 Hin : ℚ) (h12 : Lin1 ≤ Lin2) (hH : 0 ≤ Hin)
    (hlen : 0 ≤ m.length) (hht : 0 ≤ m.height) :
    EntriesLE (calculate_concrete_block_wall r m Lin1 Hin).materials_needed
      (calculate_concrete_block_wall r' m Lin2 Hin).materials_needed := by
  have hlp := concrete_len_pos m hlen
  have hhp := concrete_ht_pos m hht
  have hbpc : ⌈Lin1 / (if m.length = 0 then 16 else m.length)⌉ ≤
      ⌈Lin2 / (if m.length = 0 then 16 else m.length)⌉ :=
    Int.ceil_mono ((div_le_div_right hlp).mpr h12)
  have hcrs : (0 : ℤ) ≤ ⌈Hin / (if m.height = 0 then 8 else m.height)⌉ :=
    Int.ceil_nonneg (div_nonneg hH hhp.le)
  have htb : ⌈Lin1 / (if m.length = 0 then 16 else m.length)⌉ *
      ⌈Hin / (if m.height = 0 then 8 else m.height)⌉ ≤
      ⌈Lin2 / (if m.length = 0 then 16 else m.length)⌉ *
      ⌈Hin / (if m.height = 0 then 8 else m.height)⌉ :=
    mul_le_mul_of_nonneg_right hbpc hcrs
  refine List.Forall₂.cons ⟨rfl, ?_⟩ (List.Forall₂.cons ⟨rfl, ?_⟩
    (List.Forall₂.cons ⟨rfl, ?_⟩ (List.Forall₂.cons ⟨rfl, ?_⟩ List.Forall₂.nil)))
  · dsimp only
    exact_mod_cast htb
  · dsimp only
    exact_mod_cast Int.ceil_mono
      (mul_le_mul_of_nonneg_right (Int.cast_le.mpr htb) (by norm_num))
  · dsimp only
    exact_mod_cast Int.ceil_mono ((div_le_div_right (by norm_num)).mpr h12)
  · dsimp only
    exact roundTo_mono 2 ((div_le_div_right (by norm_num)).mpr (by linarith))

/-- Stone-branch material lines grow entrywise with the wall length. -/
theorem stone_needed_le (r r' : WallResults) (m : MaterialSpec)
    (Lin1 Lin2 Hin : ℚ) (h12 : Lin1 ≤ Lin2) (hH : 0 ≤ Hin)
    (hcov : 0 < m.coverage_per_unit) :
    EntriesLE (calculate_stone_wall r m Lin1 Hin).materials_needed
      (calculate_stone_wall r' m Lin2 Hin).materials_needed := by
  have harea : Lin1 * Hin / 144 ≤ Lin2 * Hin / 144 :=
    (div_le_div_right (by norm_num)).mpr (mul_le_mul_of_nonneg_right h12 hH)
  have hst : ⌈Lin1 * Hin / 144 / m.coverage_per_unit⌉ ≤
      ⌈Lin2 * Hin / 144 / m.coverage_per_unit⌉ :=
    Int.ceil_mono ((div_le_div_right hcov).mpr harea)
  refine List.Forall₂.cons ⟨rfl, ?_⟩ (List.Forall₂.cons ⟨rfl, ?_⟩
    (List.Forall₂.cons ⟨rfl, ?_⟩ List.Forall₂.nil))
  · dsimp only
    exact_mod_cast hst
  · dsimp only
    exact_mod_cast Int.ceil_mono
      (mul_le_mul_of_nonneg_right (Int.cast_le.mpr hst) (by norm_num))
  · dsimp only
    exact roundTo_mono 2 ((div_le_div_right (by norm_num)).mpr (by linarith))

/-- Brick-branch material lines grow entrywise with the wall length. -/
theorem brick_needed_le (r r' : WallResults) (m : MaterialSpec)
    (Lin1 Lin2 Hin : ℚ) (h12 : Lin1 ≤ Lin2) (hH : 0 ≤ Hin)
    (hlen : 0 ≤ m.length) (hht : 0 ≤ m.height) :
    EntriesLE (calculate_brick_wall r m Lin1 Hin).materials_needed
      (calculate_brick_wall r' m Lin2 Hin).materials_needed := by
  have hlp : (0 : ℚ) < m.length + 3/8 := by linarith
  have hhp : (0 : ℚ) < m.height + 3/8 := by linarith
  have hbpc : ⌈Lin1 / (m.length + 3/8)⌉ ≤ ⌈Lin2 / (m.length + 3/8)⌉ :=
    Int.ceil_mono ((div_le_div_right hlp).mpr h12)
  have hcrs : (0 : ℤ) ≤ ⌈Hin / (m.height + 3/8)⌉ :=
    Int.ceil_nonneg (div_nonneg hH hhp.le)
  have htb : ⌈Lin1 / (m.length + 3/8)⌉ * ⌈Hin / (m.height + 3/8)⌉ ≤
      ⌈Lin2 / (m.length + 3/8)⌉ * ⌈Hin / (m.height + 3/8)⌉ :=
    mul_le_mul_of_nonneg_right hbpc hcrs
  refine List.Forall₂.cons ⟨rfl, ?_⟩ (List.Forall₂.cons ⟨rfl, ?_⟩
    (List.Forall₂.cons ⟨rfl, ?_⟩ List.Forall₂.nil))
  · dsimp only
    exact_mod_cast htb
  · dsimp only
    exact_mod_cast Int.ceil_mono
      (mul_le_mul_of_nonneg_right (Int.cast_le.mpr htb) (by norm_num))
  · dsimp only
    exact roundTo_mono 2
      (mul_le_mul_of_nonneg_right (Int.cast_le.mpr htb) (by norm_num))

/-- Timber-branch material lines grow entrywise with the wall length. -/
theorem timber_needed_le (r r' : WallResults) (m : MaterialSpec)
    (Lin1 Lin2 Hin : ℚ) (h12 : Lin1 ≤ Lin2) (hH : 0 ≤ Hin)
    (hlen : 0 < m.length) (hht : 0 < m.height) :
    EntriesLE (calculate_timber_wall r m Lin1 Hin).materials_needed
      (calculate_timber_wall r' m Lin2 Hin).materials_needed := by
  have htpc : ⌈Lin1 / m.length⌉ ≤ ⌈Lin2 / m.length⌉ :=
    Int.ceil_mono ((div_le_div_right hlen).mpr h12)
  have hcrs : (0 : ℤ) ≤ ⌈Hin / m.height⌉ :=
    Int.ceil_nonneg (div_nonneg hH hht.le)
  have htb : ⌈Lin1 / m.length⌉ * ⌈Hin / m.height⌉ ≤
      ⌈Lin2 / m.length⌉ * ⌈Hin / m.height⌉ :=
    mul_le_mul_of_nonneg_right htpc hcrs
  refine List.Forall₂.cons ⟨rfl, ?_⟩ (List.Forall₂.cons ⟨rfl, ?_⟩
    (List.Forall₂.cons ⟨rfl, ?_⟩ List.Forall₂.nil))
  · dsimp only
    exact_mod_cast htb
  · dsimp only
    have h2 : ⌈Lin1 / m.length⌉ * ⌈Hin / m.height⌉ * 2 ≤
        ⌈Lin2 / m.length⌉ * ⌈Hin / m.height⌉ * 2 :=
      mul_le_mul_of_nonneg_right htb (by norm_num)
    exact_mod_cast h2
  · dsimp only
    exact roundTo_mono 2 ((div_le_div_right (by norm_num)).mpr (by linarith))

/-- Dispatch material lines grow entrywise with the wall length. -/
theorem dispatch_needed_le (r r' : WallResults) (m : MaterialSpec)
    (Lin1 Lin2 Hin : ℚ) (h12 : Lin1 ≤ Lin2) (hH : 0 ≤ Hin)
    (hlen : 0 < m.length) (hht : 0 < m.height) (hcov : 0 < m.coverage_per_unit) :
    EntriesLE (dispatch_calc r m Lin1 Hin).materials_needed
      (dispatch_calc r' m Lin2 Hin).materials_needed := by
  rcases hty : m.material_type <;>
    simp only [dispatch_calc, hty] <;>
    first
    | exact concrete_needed_le r r' m Lin1 Lin2 Hin h12 hH hlen.le hht.le
    | exact stone_needed_le r r' m Lin1 Lin2 Hin h12 hH hcov
    | exact brick_needed_le r r' m Lin1 Lin2 Hin h12 hH hlen.le hht.le
    | exact timber_needed_le r r' m Lin1 Lin2 Hin h12 hH hlen hht

/-- Assigning a key a fresh name keeps the head entry in place. -/
theorem setE_cons_ne (a : String) (b v : ℚ) (rest : Entries) (k : String)
    (ha : a ≠ k) : setE ((a, b) :: rest) k v = (a, b) :: setE rest k v := by
  rw [setE, if_neg ha]

/-- The `materials_needed` dictionary after `_add_base_materials` as an
assignment chain. -/
theorem add_base_materials_needed (r : WallResults) (L H : ℚ) :
    (add_base_materials r L H).materials_needed =
      setE (setE r.materials_needed "landscape_fabric_square_feet"
          (round0 (L * 2)))
        "drainage_pipe_feet" (if H > 3 then round0 L else 0) := rfl

/-- Base-material lines are nonnegative for a nonnegative length. -/
theorem add_base_needed_nonneg (r : WallResults) (L H : ℚ) (hL : 0 ≤ L)
    (h : ∀ p ∈ r.materials_needed, 0 ≤ p.2) :
    ∀ p ∈ (add_base_materials r L H).materials_needed, 0 ≤ p.2 := by
  rw [add_base_materials_needed]
  refine setE_forall_val (setE_forall_val h ?_) ?_
  · exact roundTo_nonneg 0 (by linarith)
  · split_ifs
    · exact roundTo_nonneg 0 hL
    · exact le_rfl

/-- Base materials use no reserved key. -/
theorem add_base_needed_keys (r : WallResults) (L H : ℚ)
    (h : ∀ p ∈ r.materials_needed, p.1 ≠ "primary_material") :
    ∀ p ∈ (add_base_materials r L H).materials_needed,
      p.1 ≠ "primary_material" := by
  rw [add_base_materials_needed]
  exact setE_forall_key (Q := fun s => s ≠ "primary_material")
    (setE_forall_key (Q := fun s => s ≠ "primary_material") h (by simp)) (by simp)

/-- Base-material lines grow entrywise with the wall length. -/
theorem add_base_needed_le {r1 r2 : WallResults} (L1 L2 H : ℚ)
    (h : EntriesLE r1.materials_needed r2.materials_needed) (h12 : L1 ≤ L2) :
    EntriesLE (add_base_materials r1 L1 H).materials_needed
      (add_base_materials r2 L2 H).materials_needed := by
  rw [add_base_materials_needed, add_base_materials_needed]
  refine EntriesLE_setE (EntriesLE_setE h ?_) ?_
  · exact roundTo_mono 0 (by linarith)
  · split_ifs
    · exact roundTo_mono 0 h12
    · exact le_rfl

/-- The `materials_needed` dictionary after `_add_cap_materials`. -/
theorem add_cap_materials_needed (mats : Catalog) (r : WallResults) (Lin : ℚ) :
    (add_cap_materials mats r Lin).materials_needed =
      match findCap mats with
      | some c =>
        if c.length ≠ 0 ∧ c.length > 0 then
          setE r.materials_needed "cap_blocks" ((⌈Lin / c.length⌉ : ℤ) : ℚ)
        else r.materials_needed
      | none => r.materials_needed := by
  rw [add_cap_materials]
  cases findCap mats with
  | none => rfl
  | some c =>
    dsimp only
    split_ifs <;> rfl

/-- Cap-material lines are nonnegative for a nonnegative length. -/
theorem add_cap_needed_nonneg (mats : Catalog) (r : WallResults) (Lin : ℚ)
    (hL : 0 ≤ Lin) (h : ∀ p ∈ r.materials_needed, 0 ≤ p.2) :
    ∀ p ∈ (add_cap_materials mats r Lin).materials_needed, 0 ≤ p.2 := by
  rw [add_cap_materials_needed]
  cases findCap mats with
  | none => exact h
  | some c =>
    dsimp only
    split_ifs with hc
    · refine setE_forall_val h ?_
      have h1 : (0 : ℤ) ≤ ⌈Lin / c.length⌉ :=
        Int.ceil_nonneg (div_nonneg hL hc.2.le)
      exact_mod_cast h1
    · exact h

/-- Cap materials use no reserved key. -/
theorem add_cap_needed_keys (mats : Catalog) (r : WallResults) (Lin : ℚ)
    (h : ∀ p ∈ r.materials_needed, p.1 ≠ "primary_material") :
    ∀ p ∈ (add_cap_materials mats r Lin).materials_needed,
      p.1 ≠ "primary_material" := by
  rw [add_cap_materials_needed]
  cases findCap mats with
  | none => exact h
  | some c =>
    dsimp only
    split_ifs
    · exact setE_forall_key (Q := fun s => s ≠ "primary_material") h (by simp)
    · exact h

/-- Cap-material lines grow entrywise with the wall length. -/
theorem add_cap_needed_le (mats : Catalog) {r1 r2 : WallResults} (Lin1 Lin2 : ℚ)
    (h : EntriesLE r1.materials_needed r2.materials_needed) (h12 : Lin1 ≤ Lin2) :
    EntriesLE (add_cap_materials mats r1 Lin1).materials_needed
      (add_cap_materials mats r2 Lin2).materials_needed := by
  rw [add_cap_materials_needed, add_cap_materials_needed]
  cases findCap mats with
  | none => exact h
  | some c =>
    dsimp only
    split_ifs with hc
    · refine EntriesLE_setE h ?_
      have h1 : ⌈Lin1 / c.length⌉ ≤ ⌈Lin2 / c.length⌉ :=
        Int.ceil_mono ((div_le_div_right hc.2).mpr h12)
      exact_mod_cast h1
    · exact h

/-- The dispatch result layout: the materials list starts with the
primary count, whose key is none of the later assignments, equals the
primary-quantity selection whatever the tail, and is an integer. -/
theorem dispatch_needed_cons (r : WallResults) (m : MaterialSpec)
    (Lin Hin : ℚ) :
    ∃ a b rest, (dispatch_calc r m Lin Hin).materials_needed = (a, b) :: rest ∧
      a ≠ "landscape_fabric_square_feet" ∧ a ≠ "drainage_pipe_feet" ∧
      a ≠ "cap_blocks" ∧
      (∀ tail : Entries, primaryQuantity m.material_type ((a, b) :: tail) = b) ∧
      ∃ z : ℤ, b = (z : ℚ) := by
  rcases hty : m.material_type <;>
    simp only [dispatch_calc, hty, calculate_concrete_block_wall,
      calculate_stone_wall, calculate_brick_wall, calculate_timber_wall] <;>
    refine ⟨_, _, _, rfl, by simp, by simp, by simp, ?_, ⟨_, rfl⟩⟩ <;>
    intro tail <;>
    simp [primaryQuantity, getD, getE]

/-- The dispatch never touches the `primary_material` section. -/
@[simp] theorem dispatch_calc_primary (r : WallResults) (m : MaterialSpec)
    (Lin Hin : ℚ) : (dispatch_calc r m Lin Hin).primary_material = r.primary_material := by
  rcases hty : m.material_type <;>
    simp only [dispatch_calc, hty, calculate_concrete_block_wall,
      calculate_stone_wall, calculate_brick_wall, calculate_timber_wall]

/-- The dispatch never touches the `wall_specifications` section. -/
@[simp] theorem dispatch_calc_specs (r : WallResults) (m : MaterialSpec)
    (Lin Hin : ℚ) :
    (dispatch_calc r m Lin Hin).wall_specifications = r.wall_specifications := by
  rcases hty : m.material_type <;>
    simp only [dispatch_calc, hty, calculate_concrete_block_wall,
      calculate_stone_wall, calculate_brick_wall, calculate_timber_wall]

/-- Base materials never touch the `primary_material` section. -/
@[simp] theorem add_base_materials_primary (r : WallResults) (L H : ℚ) :
    (add_base_materials r L H).primary_material = r.primary_material := rfl

/-- Base materials never touch the `wall_specifications` section. -/
@[simp] theorem add_base_materials_specs (r : WallResults) (L H : ℚ) :
    (add_base_materials r L H).wall_specifications = r.wall_specifications := rfl

/-- Cap materials never touch the `primary_material` section. -/
@[simp] theorem add_cap_materials_primary (mats : Catalog) (r : WallResults)
    (Lin : ℚ) : (add_cap_materials mats r Lin).primary_material = r.primary_material := by
  rw [add_cap_materials]
  cases findCap mats with
  | none => rfl
  | some c =>
    dsimp only
    split_ifs <;> rfl

/-- Cap materials never touch the `wall_specifications` section. -/
@[simp] theorem add_cap_materials_specs (mats : Catalog) (r : WallResults)
    (Lin : ℚ) :
    (add_cap_materials mats r Lin).wall_specifications = r.wall_specifications := by
  rw [add_cap_materials]
  cases findCap mats with
  | none => rfl
  | some c =>
    dsimp only
    split_ifs <;> rfl

/-- Totalling costs never touches the `primary_material` section. -/
@[simp] theorem calculate_total_costs_primary (mats : Catalog) (r : WallResults) :
    (calculate_total_costs mats r).primary_material = r.primary_material := rfl

/-- Totalling costs never touches the `wall_specifications` section. -/
@[simp] theorem calculate_total_costs_specs (mats : Catalog) (r : WallResults) :
    (calculate_total_costs mats r).wall_specifications = r.wall_specifications := rfl

/-- Totalling costs never touches the `materials_needed` dictionary. -/
@[simp] theorem calculate_total_costs_needed (mats : Catalog) (r : WallResults) :
    (calculate_total_costs mats r).materials_needed = r.materials_needed := rfl

/-- C3 witness: the 20 ft x 4 ft paver wall reports
`ceil(48 / 4) = 12` courses. -/
theorem C3_witness :
    get_material catalogP "garden_paver" = some specPaver ∧
    specPaver.material_type = .PAVERS ∧ (0 : ℚ) < specPaver.height ∧
    (0 : ℚ) < 4 ∧
    wallCalc (calculate_wall_materials catalogP 20 4 "garden_paver" true true)
      "number_of_courses" = some ((⌈((4 : ℚ) * 12) / specPaver.height⌉ : ℤ) : ℚ) :=
  ⟨by with_unfolding_all decide, by decide, by norm_num [specPaver], by norm_num,
   (C3_paver_uses_block_formula catalogP "garden_paver" specPaver 20 4 true true
     (by with_unfolding_all decide) (by decide) (by norm_num [specPaver])
     (by norm_num)).1⟩

/-- The clamp facts of `_calculate_total_costs` applied after the three
wall stages, for any base record and stage flags. -/
theorem stages_clamp (mats : Catalog) (m : MaterialSpec) (r0 : WallResults)
    (L H : ℚ) (ib cc : Bool) (r1 r2 r3 : WallResults)
    (h1 : r1 = dispatch_calc r0 m (L * 12) (H * 12))
    (h2 : r2 = if ib = true then add_base_materials r1 L H else r1)
    (h3 : r3 = if cc = true then add_cap_materials mats r2 (L * 12) else r2)
    (hprim : r0.primary_material.name = m.name)
    (hname : findByName mats m.name = some m)
    (hlen : 0 < m.length) (hht : 0 < m.height) (hcov : 0 < m.coverage_per_unit)
    (hpr : 0 ≤ m.price_per_unit) (hL : 0 ≤ L) (hH : 0 ≤ H)
    (hq : primaryQuantity m.material_type
      (calculate_total_costs mats r3).materials_needed ≤ 0) :
    getE (calculate_total_costs mats r3).cost_breakdown "primary_material"
      = some (round2 m.price_per_unit) ∧
    ∃ t, (calculate_total_costs mats r3).total_estimated_cost = some t ∧
      round2 m.price_per_unit ≤ t := by
  have hLin : (0 : ℚ) ≤ L * 12 := by linarith
  have hHin : (0 : ℚ) ≤ H * 12 := by linarith
  have h1nn : ∀ p ∈ r1.materials_needed, 0 ≤ p.2 :=
    h1 ▸ dispatch_needed_nonneg r0 m (L * 12) (H * 12) hLin hHin hlen hht hcov
  have h1keys : ∀ p ∈ r1.materials_needed, p.1 ≠ "primary_material" :=
    h1 ▸ dispatch_needed_keys r0 m (L * 12) (H * 12)
  have h2nn : ∀ p ∈ r2.materials_needed, 0 ≤ p.2 := by
    rw [h2]
    split_ifs
    · exact add_base_needed_nonneg r1 L H hL h1nn
    · exact h1nn
  have h2keys : ∀ p ∈ r2.materials_needed, p.1 ≠ "primary_material" := by
    rw [h2]
    split_ifs
    · exact add_base_needed_keys r1 L H h1keys
    · exact h1keys
  have h3nn : ∀ p ∈ r3.materials_needed, 0 ≤ p.2 := by
    rw [h3]
    split_ifs
    · exact add_cap_needed_nonneg mats r2 (L * 12) hLin h2nn
    · exact h2nn
  have h3keys : ∀ p ∈ r3.materials_needed, p.1 ≠ "primary_material" := by
    rw [h3]
    split_ifs
    · exact add_cap_needed_keys mats r2 (L * 12) h2keys
    · exact h2keys
  have hprim2 : r2.primary_material.name = m.name := by
    rw [h2]
    split_ifs
    · rw [add_base_materials_primary, h1, dispatch_calc_primary, hprim]
    · rw [h1, dispatch_calc_primary, hprim]
  have hprim3 : r3.primary_material.name = m.name := by
    rw [h3]
    split_ifs
    · rw [add_cap_materials_primary, hprim2]
    · exact hprim2
  have hname3 : findByName mats r3.primary_material.name = some m := by
    rw [hprim3]
    exact hname
  rw [calculate_total_costs_needed] at hq
  have hline := calculate_total_costs_primary_line mats r3 m hname3 h3keys
  have htot := calculate_total_costs_total mats r3 m hname3
  rw [if_pos hq, one_mul] at hline htot
  refine ⟨hline, round2 (m.price_per_unit + extraSum r3.materials_needed), htot, ?_⟩
  have hex := extraSum_nonneg r3.materials_needed h3nn
  exact roundTo_mono 2 (by linarith)

/-- C8 amended: for nonnegative wall dimensions and a material
satisfying the catalog invariants, the wall calculation always returns
a result; whenever the primary-quantity formula yields a non-positive
quantity the primary cost line is priced from the 1-clamp (one unit
price) and the rounded total is at least that one-unit price; and a
non-positive wall area is clamped to one square foot before the
installation-hours division. -/
theorem C8_clamp_nonneg_dims (mats : Catalog) (mid : String) (m : MaterialSpec)
    (L H : Rat) (ib ic : Bool)
    (hm : get_material mats mid = some m)
    (hname : findByName mats m.name = some m)
    (hlen : 0 < m.length) (hht : 0 < m.height) (hcov : 0 < m.coverage_per_unit)
    (hpr : 0 <= m.price_per_unit) (hL : 0 <= L) (hH : 0 <= H) :
    ∃ r, calculate_wall_materials mats L H mid ib ic = .ok r ∧
      (primaryQuantity m.material_type r.materials_needed <= 0 →
        getE r.cost_breakdown "primary_material" = some (round2 m.price_per_unit) ∧
        ∃ t, r.total_estimated_cost = some t ∧ round2 m.price_per_unit <= t) ∧
      (r.wall_specifications.length_feet * r.wall_specifications.height_feet <= 0 →
        estimate_installation_time r =
          max 1 (rhe (1 / 100 * time_per_100_sqft r.primary_material.type))) := by
  simp only [calculate_wall_materials, hm]
  refine ⟨_, rfl, ?_, ?_⟩
  · intro hq
    exact stages_clamp mats m _ L H ib _ _ _ _ rfl rfl rfl rfl hname
      hlen hht hcov hpr hL hH hq
  · intro harea
    rw [estimate_installation_time, if_pos harea]

/-- C8 witness: the degenerate 0 ft x 0 ft standard-block wall. -/
theorem C8_witness :
    get_material catalogA "standard_block" = some specA ∧
    findByName catalogA specA.name = some specA ∧
    ((0 : ℚ) < specA.length ∧ (0 : ℚ) < specA.height ∧
      (0 : ℚ) < specA.coverage_per_unit ∧ (0 : ℚ) ≤ specA.price_per_unit ∧
      (0 : ℚ) ≤ 0) ∧
    (∃ r, calculate_wall_materials catalogA 0 0 "standard_block" true true = .ok r ∧
      (primaryQuantity specA.material_type r.materials_needed ≤ 0 →
        getE r.cost_breakdown "primary_material" = some (round2 specA.price_per_unit) ∧
        ∃ t, r.total_estimated_cost = some t ∧ round2 specA.price_per_unit ≤ t) ∧
      (r.wall_specifications.length_feet * r.wall_specifications.height_feet ≤ 0 →
        estimate_installation_time r =
          max 1 (rhe (1 / 100 * time_per_100_sqft r.primary_material.type)))) :=
  ⟨by with_unfolding_all decide, by with_unfolding_all decide,
   ⟨by norm_num [specA], by norm_num [specA], by norm_num [specA],
    by norm_num [specA], le_rfl⟩,
   C8_clamp_nonneg_dims catalogA "standard_block" specA 0 0 true true
     (by with_unfolding_all decide) (by with_unfolding_all decide)
     (by norm_num [specA]) (by norm_num [specA]) (by norm_num [specA])
     (by norm_num [specA]) le_rfl le_rfl⟩

/-- The primary-material section survives the three wall stages. -/
theorem stages_primary_name (mats : Catalog) (m : MaterialSpec)
    (r0 : WallResults) (L H : ℚ) (ib cc : Bool) (r1 r2 r3 : WallResults)
    (h1 : r1 = dispatch_calc r0 m (L * 12) (H * 12))
    (h2 : r2 = if ib = true then add_base_materials r1 L H else r1)
    (h3 : r3 = if cc = true then add_cap_materials mats r2 (L * 12) else r2)
    (hprim : r0.primary_material.name = m.name) :
    r3.primary_material.name = m.name := by
  have hprim2 : r2.primary_material.name = m.name := by
    rw [h2]
    split_ifs
    · rw [add_base_materials_primary, h1, dispatch_calc_primary, hprim]
    · rw [h1, dispatch_calc_primary, hprim]
  rw [h3]
  split_ifs
  · rw [add_cap_materials_primary, hprim2]
  · exact hprim2

/-- The monotonicity facts of the three wall stages plus the cost
totalling, for any pair of base records and a common height. -/
theorem stages_mono (mats : Catalog) (m : MaterialSpec)
    (r0 r0' : WallResults) (L1 L2 H : ℚ) (ib cc : Bool)
    (r1 r2 r3 s1 s2 s3 : WallResults)
    (h1 : r1 = dispatch_calc r0 m (L1 * 12) (H * 12))
    (h2 : r2 = if ib = true then add_base_materials r1 L1 H else r1)
    (h3 : r3 = if cc = true then add_cap_materials mats r2 (L1 * 12) else r2)
    (g1 : s1 = dispatch_calc r0' m (L2 * 12) (H * 12))
    (g2 : s2 = if ib = true then add_base_materials s1 L2 H else s1)
    (g3 : s3 = if cc = true then add_cap_materials mats s2 (L2 * 12) else s2)
    (hprim : r0.primary_material.name = m.name)
    (hprim' : r0'.primary_material.name = m.name)
    (hname : findByName mats m.name = some m)
    (hlen : 0 < m.length) (hht : 0 < m.height) (hcov : 0 < m.coverage_per_unit)
    (hpr : 0 ≤ m.price_per_unit) (hH : 0 ≤ H) (h12 : L1 ≤ L2) :
    primaryQuantity m.material_type r3.materials_needed ≤
      primaryQuantity m.material_type s3.materials_needed ∧
    (calculate_total_costs mats r3).total_estimated_cost.getD 0 ≤
      (calculate_total_costs mats s3).total_estimated_cost.getD 0 := by
  have hHin : (0 : ℚ) ≤ H * 12 := by linarith
  have h12in : L1 * 12 ≤ L2 * 12 := by linarith
  have hle1 : EntriesLE r1.materials_needed s1.materials_needed := by
    rw [h1, g1]
    exact dispatch_needed_le r0 r0' m (L1 * 12) (L2 * 12) (H * 12)
      h12in hHin hlen hht hcov
  have hle2 : EntriesLE r2.materials_needed s2.materials_needed := by
    rw [h2, g2]
    split_ifs
    · exact add_base_needed_le L1 L2 H hle1 h12
    · exact hle1
  have hle3 : EntriesLE r3.materials_needed s3.materials_needed := by
    rw [h3, g3]
    split_ifs
    · exact add_cap_needed_le mats (L1 * 12) (L2 * 12) hle2 h12in
    · exact hle2
  have hqmono := primaryQuantity_mono m.material_type hle3
  refine ⟨hqmono, ?_⟩
  -- the primary quantity at the longer wall is an integer
  obtain ⟨a, b, rest, hcons, hfab, hdra, hcap, hpq, z, hz⟩ :=
    dispatch_needed_cons r0' m (L2 * 12) (H * 12)
  have hs1 : s1.materials_needed = (a, b) :: rest := by rw [g1, hcons]
  have hs2 : ∃ tail, s2.materials_needed = (a, b) :: tail := by
    rw [g2]
    split_ifs
    · rw [add_base_materials_needed, hs1,
        setE_cons_ne a b _ rest _ hfab, setE_cons_ne a b _ _ _ hdra]
      exact ⟨_, rfl⟩
    · exact ⟨rest, hs1⟩
  obtain ⟨tail2, hs2⟩ := hs2
  have hs3 : ∃ tail, s3.materials_needed = (a, b) :: tail := by
    rw [g3]
    split_ifs
    · rw [add_cap_materials_needed]
      cases findCap mats with
      | none => exact ⟨tail2, hs2⟩
      | some c =>
        dsimp only
        split_ifs
        · rw [hs2, setE_cons_ne a b _ _ _ hcap]
          exact ⟨_, rfl⟩
        · exact ⟨tail2, hs2⟩
    · exact ⟨tail2, hs2⟩
  obtain ⟨tail3, hs3⟩ := hs3
  have hq2int : ∃ w : ℤ, primaryQuantity m.material_type s3.materials_needed = (w : ℚ) := by
    rw [hs3, hpq tail3]
    exact ⟨z, hz⟩
  have hname3 : findByName mats r3.primary_material.name = some m := by
    rw [stages_primary_name mats m r0 L1 H ib cc r1 r2 r3 h1 h2 h3 hprim]
    exact hname
  have hname3' : findByName mats s3.primary_material.name = some m := by
    rw [stages_primary_name mats m r0' L2 H ib cc s1 s2 s3 g1 g2 g3 hprim']
    exact hname
  rw [calculate_total_costs_total mats r3 m hname3,
    calculate_total_costs_total mats s3 m hname3']
  simp only [Option.getD_some]
  have hclamp := clamp_mono_int hqmono hq2int
  have hextra := extraSum_mono hle3
  refine roundTo_mono 2 ?_
  have hmul := mul_le_mul_of_nonneg_right hclamp hpr
  linarith

/-- C9: with the height, material and flags fixed and the catalog
invariants holding, a longer wall never has a smaller primary quantity
and never a smaller total estimated cost. -/
theorem C9_length_monotone (mats : Catalog) (mid : String) (m : MaterialSpec)
    (H L1 L2 : ℚ) (ib ic : Bool)
    (hm : get_material mats mid = some m)
    (hname : findByName mats m.name = some m)
    (hlen : 0 < m.length) (hht : 0 < m.height) (hcov : 0 < m.coverage_per_unit)
    (hpr : 0 ≤ m.price_per_unit) (hH : 0 ≤ H) (h12 : L1 ≤ L2) :
    primaryQuantity m.material_type
        (wallNeededList (calculate_wall_materials mats L1 H mid ib ic)) ≤
      primaryQuantity m.material_type
        (wallNeededList (calculate_wall_materials mats L2 H mid ib ic)) ∧
    wallTotalD (calculate_wall_materials mats L1 H mid ib ic) ≤
      wallTotalD (calculate_wall_materials mats L2 H mid ib ic) := by
  simp only [calculate_wall_materials, hm, wallNeededList, wallTotalD,
    calculate_total_costs_needed]
  exact stages_mono mats m _ _ L1 L2 H ib _ _ _ _ _ _ _
    rfl rfl rfl rfl rfl rfl rfl rfl hname hlen hht hcov hpr hH h12

/-- C9 witness: 10 ft versus 20 ft standard-block walls of height
4 ft. -/
theorem C9_witness :
    get_material catalogA "standard_block" = some specA ∧
    findByName catalogA specA.name = some specA ∧
    ((0 : ℚ) < specA.length ∧ (0 : ℚ) < specA.height ∧
      (0 : ℚ) < specA.coverage_per_unit ∧ (0 : ℚ) ≤ specA.price_per_unit ∧
      (0 : ℚ) ≤ 4 ∧ (10 : ℚ) ≤ 20) ∧
    (primaryQuantity specA.material_type
        (wallNeededList (calculate_wall_materials catalogA 10 4 "standard_block" true true)) ≤
      primaryQuantity specA.material_type
        (wallNeededList (calculate_wall_materials catalogA 20 4 "standard_block" true true)) ∧
    wallTotalD (calculate_wall_materials catalogA 10 4 "standard_block" true true) ≤
      wallTotalD (calculate_wall_materials catalogA 20 4 "standard_block" true true)) :=
  ⟨by with_unfolding_all decide, by with_unfolding_all decide,
   ⟨by norm_num [specA], by norm_num [specA], by norm_num [specA],
    by norm_num [specA], by norm_num, by norm_num⟩,
   C9_length_monotone catalogA "standard_block" specA 4 10 20 true true
     (by with_unfolding_all decide) (by with_unfolding_all decide)
     (by norm_num [specA]) (by norm_num [specA]) (by norm_num [specA])
     (by norm_num [specA]) (by norm_num) (by norm_num)⟩

end Landscaper
